import Mathlib

/-!
# Verification of the batman-chatbot query-resolution pipeline

This file is a shallow embedding, in Lean 4, of the deterministic core of the
repository's query-resolution pipeline:

* `chatbot/core/query_processor.py`       (`AdvancedQueryProcessor`)
* `chatbot/core/relationship_processor.py`(`RelationshipProcessor`)
* `chatbot/core/intelligent_search.py`    (`IntelligentSearchEngine`)
* `chatbot/core/conversation_intelligence.py` (`ConversationIntelligence`)
* `chatbot/core/enhanced_comparisons.py`  (`EnhancedComparisonEngine`)
* `chatbot/core/batman_chatbot.py`        (`BatmanChatbot.process_query` and its handlers)

Modelling conventions, decided once and used throughout:

* Strings are modelled as `List Char` (`Str`); every Python string operation used
  by the code (`lower`, `strip`, `title`, `upper`, `replace`, `split`, substring
  tests, SQL `LIKE '%x%'`) is re-implemented below on `List Char`.
* Python regular expressions are modelled by a small token matcher (`Tok`,
  `matchToks`, `reSearch`) implementing `re.search` semantics: leftmost start
  position, ordered alternation, lazy (`(.+?)`, `.*?`) and greedy (`(.+)`, `.*`)
  quantifiers with backtracking.  Every pattern of the source is transcribed as a
  token list next to a comment quoting the original pattern.
* Python floats: every confidence constant in the source is a short decimal
  (0.4, 0.5, 0.6, 0.7, 0.8, 0.9, 1.0) and every computed confidence is
  `score/100` or `(score + boost*0.1)/100` for integer inputs, so all confidence
  arithmetic is exact in thousandths.  Confidences are therefore represented as
  integers scaled by 1000 (`0.6` ↦ `600`, `score/100.0` ↦ `10*score`).
  Fuzzy-match scores stay on their native 0–100 scale.  Parsed vehicle speeds
  (`_extract_speed_number`, which may return decimals) are represented as exact
  fractions (`Frac`) compared by cross-multiplication.
* The external `fuzzywuzzy` library (`process.extract`, `fuzz.ratio`,
  `fuzz.partial_ratio`, `fuzz.token_sort_ratio`), the SQLite FTS5 ranking used by
  `_full_text_search`, and the conversation-history regex scraping of
  `_handle_contextual_followup` are external/unscriptable inputs; they are
  modelled as oracle parameters bundled in `ExtLib`.  Library contracts (scores in
  `[0,100]`) appear as explicit hypotheses where a theorem needs them.
* The SQLite database is modelled as in-memory tables (`DB`); queries of the
  source are modelled row-by-row (`LIKE` as case-insensitive substring,
  `fetchone` as first row in table order).
* Response *text* (answer strings, `response_generator.py` templates) is
  intentionally not modelled: the generator draws templates at random, and the
  specification itself (§4.6, §8) designates `confidence`, `source_entities`,
  `query_type` and `suggestions` as the deterministic, testable surface.  The
  embedded `BatmanResponse` carries exactly those four fields.
* `process_query` appends to the conversation history and, on one guarded
  branch, recurses; the embedding takes the prior history as a parameter and a
  fuel bound for that recursion (exhausted fuel yields the clarification
  response, which is the branch's own fallback).
-/

/-! ## String helpers (Python semantics on `List Char`) -/

abbrev Str := List Char

/-- Shorthand turning a Lean string literal into the `List Char` representation. -/
def S (s : String) : Str := s.data

/-- ASCII lowercase, Python `str.lower()`. -/
def strLower (s : Str) : Str := s.map Char.toLower

/-- ASCII uppercase, Python `str.upper()`. -/
def strUpper (s : Str) : Str := s.map Char.toUpper

/-- Python whitespace (`str.strip`, `str.split`, regex `\s`). -/
def isWsChar (c : Char) : Bool :=
  c = ' ' || c = '\t' || c = '\n' || c = '\r' || c = '\x0b' || c = '\x0c'

/-- Python `str.strip()`. -/
def strStrip (s : Str) : Str :=
  ((s.dropWhile isWsChar).reverse.dropWhile isWsChar).reverse

/-- Substring test, Python `needle in hay`. -/
def hasSub (needle hay : Str) : Bool :=
  match hay with
  | [] => needle.isEmpty
  | _ :: tl => needle.isPrefixOf hay || hasSub needle tl

/-- Python `str.replace(old, new)` (all occurrences; `old` nonempty in all uses). -/
def strReplace (old new : Str) : Str → Str
  | [] => []
  | c :: tl =>
      if old.isPrefixOf (c :: tl) && !old.isEmpty then
        new ++ strReplace old new (tl.drop (old.length - 1))
      else
        c :: strReplace old new tl
termination_by s => s.length
decreasing_by
  · simp only [List.length_drop, List.length_cons]; omega
  · simp

/-- Replace a single character everywhere, e.g. Python `s.replace('_', ' ')`. -/
def chReplace (old new : Char) (s : Str) : Str :=
  s.map (fun c => if c = old then new else c)

/-- Python `str.split()` — split on whitespace runs, dropping empties
(accumulator variant; `cur` holds the current word reversed). -/
def splitWsAux (cur : Str) : Str → List Str
  | [] => if cur.isEmpty then [] else [cur.reverse]
  | c :: tl =>
      if isWsChar c then
        if cur.isEmpty then splitWsAux [] tl else cur.reverse :: splitWsAux [] tl
      else
        splitWsAux (c :: cur) tl

def splitWs (s : Str) : List Str := splitWsAux [] s

/-- Join words with single spaces, Python `' '.join(words)`. -/
def joinSpace (ws : List Str) : Str :=
  match ws with
  | [] => []
  | [w] => w
  | w :: rest => w ++ ' ' :: joinSpace rest

/-- ASCII letter test (Python `str.title()` boundaries; names here are ASCII). -/
def isAlphaCh (c : Char) : Bool := c.isAlpha

/-- Python `str.title()`: uppercase a letter after a non-letter, lowercase otherwise. -/
def pyTitleAux (prevAlpha : Bool) (s : Str) : Str :=
  match s with
  | [] => []
  | c :: tl =>
      let c' := if isAlphaCh c then (if prevAlpha then c.toLower else c.toUpper) else c
      c' :: pyTitleAux (isAlphaCh c) tl

def pyTitle (s : Str) : Str := pyTitleAux false s

/-- SQL `LIKE '%pat%'` — case-insensitive containment (SQLite default for ASCII). -/
def likeSub (pat s : Str) : Bool := hasSub (strLower pat) (strLower s)

/-- SQL `LIKE '%a%b%'` — `a` then `b` in order, case-insensitively. -/
def likeSub2 (a b s : Str) : Bool :=
  let sl := strLower s
  let rec go (hay : Str) : Bool :=
    match hay with
    | [] => false
    | _ :: tl =>
        ((strLower a).isPrefixOf hay && hasSub (strLower b) (hay.drop a.length))
          || go tl
  go sl

/-- Python regex `\w` (ASCII fragment): letters, digits, underscore. -/
def isWordChar (c : Char) : Bool := c.isAlphanum || c = '_'

/-! ## Regex token matcher

Each Python pattern used by the code is a sequence of literals, ordered
alternations of literals, lazy/greedy capture groups `(.+?)`/`(.+)`, whitespace
quantifiers `\s+`/`\s*`, uncaptured gaps `.*?`/`.*`, and the terminator
`(?:\?|$)`.  `matchToks` matches a token list at the head of the input with full
backtracking; `reSearch` tries successive start positions (Python `re.search`).
Alternatives are tried in source order, lazy quantifiers shortest-first, greedy
quantifiers longest-first — the deterministic choice Python's engine makes. -/

inductive Tok where
  | lit (s : String)
  | alts (ss : List String)
  | grpL
  | grpG
  | wsP
  | wsS
  | anyL
  | anyG
  | eosQ
deriving Repr, DecidableEq

/-- Length of the leading whitespace run. -/
def wsRunLen (cs : Str) : Nat :=
  match cs with
  | [] => 0
  | c :: tl => if isWsChar c then wsRunLen tl + 1 else 0

def matchToks : List Tok → Str → Option (List Str)
  | [], _ => some []
  | Tok.lit s :: rest, cs =>
      if s.data.isPrefixOf cs then matchToks rest (cs.drop s.data.length) else none
  | Tok.alts ss :: rest, cs =>
      ss.findSome? (fun s =>
        if s.data.isPrefixOf cs then matchToks rest (cs.drop s.data.length) else none)
  | Tok.grpL :: rest, cs =>
      (List.range cs.length).findSome? (fun k =>
        (matchToks rest (cs.drop (k+1))).map (fun caps => cs.take (k+1) :: caps))
  | Tok.grpG :: rest, cs =>
      (List.range cs.length).reverse.findSome? (fun k =>
        (matchToks rest (cs.drop (k+1))).map (fun caps => cs.take (k+1) :: caps))
  | Tok.wsP :: rest, cs =>
      (List.range (wsRunLen cs)).reverse.findSome? (fun k =>
        matchToks rest (cs.drop (k+1)))
  | Tok.wsS :: rest, cs =>
      (List.range (wsRunLen cs + 1)).reverse.findSome? (fun k =>
        matchToks rest (cs.drop k))
  | Tok.anyL :: rest, cs =>
      (List.range (cs.length + 1)).findSome? (fun k =>
        matchToks rest (cs.drop k))
  | Tok.anyG :: rest, cs =>
      (List.range (cs.length + 1)).reverse.findSome? (fun k =>
        matchToks rest (cs.drop k))
  | Tok.eosQ :: rest, cs =>
      (match cs with
       | '?' :: tl => matchToks rest tl
       | _ => none).orElse (fun _ =>
        if cs.isEmpty then matchToks rest [] else none)

def searchAux (toks : List Tok) : Str → Option (List Str)
  | [] => matchToks toks []
  | cs@(_ :: tl) =>
      match matchToks toks cs with
      | some caps => some caps
      | none => searchAux toks tl

/-- Python `re.search(pattern, s)`, returning the capture-group list. -/
def reSearch (toks : List Tok) (s : Str) : Option (List Str) :=
  searchAux toks s

/-- First capture group of a match, `match.group(1)`. -/
def grp1 (r : Option (List Str)) : Option Str :=
  match r with
  | some (g :: _) => some g
  | _ => none

/-- Both capture groups of a two-group match. -/
def grp2 (r : Option (List Str)) : Option (Str × Str) :=
  match r with
  | some (g1 :: g2 :: _) => some (g1, g2)
  | _ => none

/-- First pattern in a family that matches, returning its first group
(the `for pattern in patterns: if match: ...` idiom of the source). -/
def firstGroup (pats : List (List Tok)) (s : Str) : Option Str :=
  pats.findSome? (fun p => grp1 (reSearch p s))

/-- First pattern in a family that matches, returning its two groups. -/
def firstGroup2 (pats : List (List Tok)) (s : Str) : Option (Str × Str) :=
  pats.findSome? (fun p => grp2 (reSearch p s))

/-! ## Data model

`DB` models the SQLite tables read by the pipeline; `''` models SQL `NULL` in
text columns (the source treats both as falsy).  Row order models cursor order. -/

structure EntityRow where
  id : Str
  name : Str
  description : Str
deriving DecidableEq, Repr

structure AliasRow where
  characterId : Str
  aliasName : Str
deriving DecidableEq, Repr

structure SpecRow where
  vehicleId : Str
  maxSpeed : Str
  armor : Str
  others : List (Str × Str)
deriving DecidableEq, Repr

structure CharLocRow where
  characterId : Str
  locationId : Str
  associationType : Str
deriving DecidableEq, Repr

structure CharRelRow where
  characterId : Str
  relatedCharacterId : Str
  relationshipType : Str
deriving DecidableEq, Repr

structure DB where
  characters : List EntityRow
  vehicles : List EntityRow
  locations : List EntityRow
  storylines : List EntityRow
  organizations : List EntityRow
  characterAliases : List AliasRow
  vehicleWeapons : List (Str × Str)
  vehicleDefensiveSystems : List (Str × Str)
  vehicleSpecialFeatures : List (Str × Str)
  vehicleSpecifications : List SpecRow
  characterLocations : List CharLocRow
  vehicleUsers : List (Str × Str)
  characterRelationships : List CharRelRow
  characterPowers : List (Str × Str)
deriving Repr

def allKinds : List String :=
  ["characters", "vehicles", "locations", "storylines", "organizations"]

def DB.byKind (db : DB) : String → List EntityRow
  | "characters" => db.characters
  | "vehicles" => db.vehicles
  | "locations" => db.locations
  | "storylines" => db.storylines
  | "organizations" => db.organizations
  | _ => []

/-- `SELECT * FROM {entity_type} WHERE id = ? LIMIT 1` (`_get_entity_by_id`). -/
def getEntityById (db : DB) (entityId : Str) (etype : String) : Option EntityRow :=
  (db.byKind etype).find? (fun e => e.id = entityId)

/-! ## Entity cache (`AdvancedQueryProcessor._build_entity_cache`)

Alias rows are re-materialised as pseudo-entities carrying the alias as `name`
and a back-reference `realName` to the character's canonical name; their `id` is
the joined character's id (`SELECT c.id, c.name, ca.alias ... JOIN ...`). -/

structure CacheEntry where
  id : Str
  name : Str
  description : Str
  isAlias : Bool
  realName : Option Str
deriving DecidableEq, Repr

structure EntityCache where
  characters : List CacheEntry
  vehicles : List CacheEntry
  locations : List CacheEntry
  storylines : List CacheEntry
  organizations : List CacheEntry
deriving Repr

def EntityCache.byKind (c : EntityCache) : String → List CacheEntry
  | "characters" => c.characters
  | "vehicles" => c.vehicles
  | "locations" => c.locations
  | "storylines" => c.storylines
  | "organizations" => c.organizations
  | _ => []

def plainEntry (e : EntityRow) : CacheEntry :=
  { id := e.id, name := e.name, description := e.description,
    isAlias := false, realName := none }

def buildEntityCache (db : DB) : EntityCache :=
  { characters :=
      db.characters.map plainEntry ++
      db.characterAliases.filterMap (fun ar =>
        (db.characters.find? (fun c => c.id = ar.characterId)).map (fun c =>
          { id := c.id, name := ar.aliasName, description := [],
            isAlias := true, realName := some c.name }))
    vehicles := db.vehicles.map plainEntry
    locations := db.locations.map plainEntry
    storylines := db.storylines.map plainEntry
    organizations := db.organizations.map plainEntry }

/-! ## Match results and external-library oracles -/

structure EntityMatch where
  entityId : Str
  entityType : String
  name : Str
  confidence : Int
  matchType : String
deriving DecidableEq, Repr

structure SearchResult where
  entityId : Str
  entityType : String
  name : Str
  description : Str
  confidence : Int
  matchType : String
deriving DecidableEq, Repr

/-- External collaborators: `fuzzywuzzy`'s `process.extract` and the three
similarity measures (`fuzz.ratio`, `fuzz.partial_ratio`,
`fuzz.token_sort_ratio`), SQLite's FTS5 ranking (the whole
`IntelligentSearchEngine._full_text_search`), and the conversation-history
entity scraping of `BatmanChatbot._handle_contextual_followup`. -/
structure ExtLib where
  extract : Str → List Str → Nat → List (Str × Nat)
  simW : Str → Str → Nat
  simPart : Str → Str → Nat
  simTok : Str → Str → Nat
  fts : Str → Option SearchResult
  followup : List (String × Str) → Str → Option Str

/-! ## `AdvancedQueryProcessor._clean_query_for_matching` -/

def aliasMappings : List (Str × Str) :=
  [ (S "city of gotham", S "gotham city")
  , (S "batman\x27s base", S "batcave")
  , (S "batman base", S "batcave")
  , (S "where does batman live", S "wayne manor")
  , (S "batman\x27s car", S "batmobile")
  , (S "batman car", S "batmobile")
  , (S "what does batman drive", S "batmobile")
  , (S "batman\x27s plane", S "batwing")
  , (S "batman plane", S "batwing")
  , (S "dark knight", S "batman")
  , (S "caped crusader", S "batman")
  , (S "world\x27s greatest detective", S "batman")
  , (S "clown prince of crime", S "joker")
  , (S "scarecrow real name", S "jonathan crane")
  , (S "scarecrow\x27s real name", S "jonathan crane")
  , (S "batman\x27s primary mode of transportation", S "batmobile") ]

def qpStopWords : List Str :=
  [S "who", S "is", S "what", S "where", S "the", S "a", S "an",
   S "tell", S "me", S "about", S "does", S "usually", S "operate"]

def cleanQueryForMatching (q : Str) : Str :=
  let ql := strLower q
  let ql :=
    match aliasMappings.find? (fun p => hasSub p.1 ql) with
    | some p => strReplace p.1 p.2 ql
    | none => ql
  let cleaned := (splitWs ql).filterMap (fun w =>
    let cw := w.filter isWordChar
    if !cw.isEmpty && !(qpStopWords.contains cw) then some cw else none)
  joinSpace cleaned

/-! ## Importance bonus (`_calculate_importance_bonus`)

The identical function appears verbatim in `query_processor.py` and in
`intelligent_search.py`; the returned float (0.2/0.15/0.05) is given here in
percentage points (20/15/5) — the source multiplies by 100 before adding to a
0–100 score, or adds it directly to a 0–1 score (scaled ×10 at the use site). -/

def mainCharactersList : List Str :=
  [S "batman", S "robin", S "joker", S "catwoman", S "penguin", S "riddler",
   S "two_face", S "harvey_dent", S "scarecrow", S "poison_ivy", S "mr_freeze",
   S "bane", S "harley_quinn", S "ra\x27s_al_ghul", S "alfred",
   S "commissioner_gordon", S "batgirl", S "nightwing", S "red_hood", S "red_robin"]

def mainLocationsList : List Str :=
  [S "gotham_city", S "arkham_asylum", S "wayne_manor", S "batcave",
   S "gcpd", S "ace_chemicals", S "blackgate_prison"]

def mainVehiclesList : List Str :=
  [S "batmobile", S "batplane", S "batwing", S "batboat"]

def importanceBonusPct (name : Str) (etype : String) : Nat :=
  let nl := strLower name
  if etype = "characters" && mainCharactersList.any (fun m => hasSub m nl) then 20
  else if etype = "locations" && mainLocationsList.any (fun m => hasSub m nl) then 15
  else if etype = "vehicles" && mainVehiclesList.any (fun m => hasSub m nl) then 15
  else if (splitWs (chReplace '_' ' ' name)).length ≤ 2 then 5
  else 0

/-! ## `AdvancedQueryProcessor.find_best_entity_match`

Candidates keep the original fuzzy score and the bonus-boosted final score (the
source's candidate dicts); selection is by strict improvement over a running
best starting at 0, i.e. the first candidate of maximal final score wins. -/

structure Cand where
  finalScore : Nat
  originalScore : Nat
  em : EntityMatch
deriving DecidableEq, Repr

def findBestCandidates (E : ExtLib) (cache : EntityCache) (clean : Str)
    (searchTypes : List String) (threshold : Nat) : List Cand :=
  searchTypes.flatMap (fun t =>
    let entities := cache.byKind t
    if entities.isEmpty then []
    else
      (E.extract clean (entities.map (·.name)) 5).filterMap (fun p =>
        if p.2 ≥ max threshold 50 then
          (entities.find? (fun e => e.name = p.1)).map (fun e =>
            { finalScore := p.2 + importanceBonusPct e.name t
              originalScore := p.2
              em :=
                { entityId := e.id, entityType := t,
                  name := e.realName.getD e.name,
                  confidence := 10 * (p.2 : Int),
                  matchType := if e.isAlias then "alias" else "fuzzy" } })
        else none))

/-- The running `best_score` (initialised to 0, `None` carrying score 0). -/
def bestScoreOf : Option Cand → Nat
  | none => 0
  | some b => b.finalScore

def pickBestGo (best : Option Cand) : List Cand → Option Cand
  | [] => best
  | c :: rest =>
      pickBestGo (if c.finalScore > bestScoreOf best then some c else best) rest

def findBestEntityMatch (E : ExtLib) (cache : EntityCache) (q : Str)
    (entityType : Option String := none) (threshold : Nat := 70) :
    Option EntityMatch :=
  let clean := cleanQueryForMatching q
  let searchTypes := match entityType with
    | some t => [t]
    | none => allKinds
  (pickBestGo none (findBestCandidates E cache clean searchTypes threshold)).map (·.em)

/-! ## `AdvancedQueryProcessor.find_multiple_entities` -/

def entityImportance : List (Str × Nat) :=
  [ (S "Batman", 100), (S "Joker", 95), (S "Robin_(Dick_Grayson)", 90)
  , (S "Robin_(Tim_Drake)", 85), (S "Robin_(Damian_Wayne)", 80)
  , (S "Alfred_Pennyworth", 85), (S "Commissioner_Gordon", 80)
  , (S "Nightwing", 80), (S "Batgirl", 75), (S "Catwoman", 80)
  , (S "Two-Face", 70), (S "Penguin", 70), (S "Riddler", 70), (S "Bane", 75)
  , (S "Scarecrow", 65), (S "Harley_Quinn", 70), (S "Poison_Ivy", 65)
  , (S "Batmobile", 90), (S "Batwing", 80), (S "Wayne_Manor", 80)
  , (S "Gotham_City", 90), (S "Arkham_Asylum", 75) ]

def importanceValue (name : Str) : Nat :=
  ((entityImportance.find? (fun p => p.1 = name)).map (·.2)).getD 0

/-- Stable descending insertion by confidence: equal keys keep original order,
modelling Python's stable `sort(key=..., reverse=True)`. -/
def insertByConfDesc (m : EntityMatch) : List EntityMatch → List EntityMatch
  | [] => [m]
  | x :: xs =>
      if x.confidence > m.confidence then x :: insertByConfDesc m xs
      else m :: x :: xs

def sortByConfDesc (l : List EntityMatch) : List EntityMatch :=
  l.foldr insertByConfDesc []

def findMultipleEntities (E : ExtLib) (cache : EntityCache) (q : Str)
    (maxResults : Nat := 5) (threshold : Nat := 60) : List EntityMatch :=
  let clean := cleanQueryForMatching q
  let ms := allKinds.flatMap (fun t =>
    let entities := cache.byKind t
    if entities.isEmpty then []
    else
      (E.extract clean (entities.map (·.name)) 8).filterMap (fun p =>
        if p.2 ≥ threshold then
          (entities.find? (fun e => e.name = p.1)).map (fun e =>
            { entityId := e.id, entityType := t,
              name := e.realName.getD e.name,
              confidence := min (10 * (p.2 : Int) + (importanceValue e.name : Int)) 1000,
              matchType := if e.isAlias then "alias" else "fuzzy" })
        else none))
  (sortByConfDesc ms).take maxResults

/-! ## `AdvancedQueryProcessor.semantic_search` -/

def kwStopWords : List Str :=
  [S "who", S "is", S "what", S "where", S "when", S "how", S "the", S "a",
   S "an", S "and", S "or", S "but", S "tell", S "me", S "about", S "can", S "you"]

/-- Maximal `\w+` runs, Python `re.findall(r'\b\w+\b', s)`. -/
def wordRunsAux (cur : Str) : Str → List Str
  | [] => if cur.isEmpty then [] else [cur.reverse]
  | c :: tl =>
      if isWordChar c then wordRunsAux (c :: cur) tl
      else if cur.isEmpty then wordRunsAux [] tl
      else cur.reverse :: wordRunsAux [] tl

def extractKeywords (q : Str) : List Str :=
  (wordRunsAux [] (strLower q)).filter (fun w =>
    !(kwStopWords.contains w) && w.length > 2)

/-- Keyword relevance score of `semantic_search`: +20 per keyword in the name,
else +10 per keyword in the description, plus a multi-keyword bonus. -/
def semanticScore (keywords : List Str) (e : CacheEntry) : Nat :=
  let desc := strLower e.description
  let nm := strLower e.name
  let base := keywords.foldl (fun acc kw =>
    acc + (if hasSub kw nm then 20 else if hasSub kw desc then 10 else 0)) 0
  let kwMatches := (keywords.filter (fun kw => hasSub kw desc || hasSub kw nm)).length
  base + (if kwMatches > 1 then kwMatches * 5 else 0)

def semanticSearch (cache : EntityCache) (q : Str)
    (entityType : Option String := none) (maxResults : Nat := 5) :
    List EntityMatch :=
  let searchTypes := match entityType with
    | some t => [t]
    | none => allKinds
  let keywords := extractKeywords q
  let ms := searchTypes.flatMap (fun t =>
    (cache.byKind t).filterMap (fun e =>
      if semanticScore keywords e > 0 then
        some { entityId := e.id, entityType := t, name := e.name,
               confidence := min (10 * (semanticScore keywords e : Int)) 1000,
               matchType := "description" }
      else none))
  (sortByConfDesc ms).take maxResults

/-! ## `AdvancedQueryProcessor.handle_ambiguous_query` -/

inductive AmbResult where
  | noMatches
  | singleMatch (m : EntityMatch)
  | multipleMatches (ms : List EntityMatch)
deriving DecidableEq, Repr

def handleAmbiguousQuery (E : ExtLib) (cache : EntityCache) (q : Str) : AmbResult :=
  match findMultipleEntities E cache q 5 50 with
  | [] => .noMatches
  | [m] => .singleMatch m
  | m1 :: m2 :: rest => .multipleMatches (m1 :: m2 :: rest)

/-! ## Character-specific vehicle resolution (`find_best_vehicle_match` etc.) -/

def vehCharPatterns : List (List Tok) :=
  [ -- r'what (?:does|do) (.+?) (?:drive|use|pilot|operate)'
    [Tok.lit "what ", Tok.alts ["does", "do"], Tok.lit " ", Tok.grpL,
     Tok.lit " ", Tok.alts ["drive", "use", "pilot", "operate"]]
  , -- r'what (?:car|vehicle|transportation) (?:does|do) (.+?) (?:drive|use|have)'
    [Tok.lit "what ", Tok.alts ["car", "vehicle", "transportation"], Tok.lit " ",
     Tok.alts ["does", "do"], Tok.lit " ", Tok.grpL, Tok.lit " ",
     Tok.alts ["drive", "use", "have"]]
  , -- r'(.+?)(?:\'s|s) (?:car|vehicle|mobile)'
    [Tok.grpL, Tok.alts ["\x27s", "s"], Tok.lit " ",
     Tok.alts ["car", "vehicle", "mobile"]] ]

/-- Python `s.split(sep)` (empties kept). -/
def splitChAux (sep : Char) (cur : Str) : Str → List Str
  | [] => [cur.reverse]
  | c :: tl =>
      if c = sep then cur.reverse :: splitChAux sep [] tl
      else splitChAux sep (c :: cur) tl

def splitOnChar (sep : Char) (s : Str) : List Str := splitChAux sep [] s

def isCharacterVehicleMatch (characterName vehicleName : Str) : Bool :=
  let cl := strLower characterName
  let vl := strLower vehicleName
  if hasSub cl vl then true
  else if cl = S "batman" then
    [S "batmobile", S "batcycle", S "batwing", S "batboat", S "batcopter"].any
      (fun s => hasSub s vl)
  else if cl = S "joker" then false
  else if cl = S "two face" || cl = S "two-face" || cl = S "twoface" then
    [S "two-face", S "two_face", S "twoface"].any (fun s => hasSub s vl)
  else if cl = S "penguin" then hasSub (S "penguin") vl
  else if cl = S "riddler" then hasSub (S "riddler") vl
  else if cl = S "catwoman" then
    [S "catwoman", S "catmobile", S "catcycle", S "catboat"].any (fun s => hasSub s vl)
  else if cl = S "harvey dent" || cl = S "harvey" then
    [S "two-face", S "two_face", S "harvey", S "dent"].any (fun s => hasSub s vl)
  else false

def calculateVehicleScore (E : ExtLib) (v : CacheEntry) (characterName query : Str) : Int :=
  let vn := strLower v.name
  let base : Int := (E.simW (strLower characterName) vn : Int)
  let ql := strLower query
  let ctxBonus : Int :=
    if hasSub (S "drive") ql || hasSub (S "car") ql then
      if [S "mobile", S "car", S "vehicle"].any (fun s => hasSub s vn) then 25
      else if [S "cycle", S "bike"].any (fun s => hasSub s vn) then 15
      else if [S "copter", S "plane", S "wing"].any (fun s => hasSub s vn) then 5
      else if [S "boat", S "sub", S "ship", S "submarine"].any (fun s => hasSub s vn) then
        if strLower characterName = S "penguin" && hasSub (S "submarine") vn then 15
        else -10
      else if [S "train", S "rail"].any (fun s => hasSub s vn) then -15
      else 0
    else 0
  let iconicBonus : Int :=
    if strLower characterName = S "joker" then
      if hasSub (S "jokermobile") vn && !hasSub (S "dozierverse") vn then 30
      else if hasSub (S "jokermobile") vn then 20
      else if hasSub (S "goon_car") vn then 10
      else 0
    else if strLower characterName = S "batman" then
      if vn = S "batmobile" ||
          (hasSub (S "batmobile") vn && (splitOnChar '_' vn).length ≤ 2) then 30
      else 0
    else if strLower characterName = S "penguin" then
      if hasSub (S "submarine") vn then 30
      else if hasSub (S "penguin") vn then 20
      else 0
    else 0
  let versePenalty : Int := if hasSub (S "(") vn || hasSub (S "verse") vn then -5 else 0
  let pctPenalty : Int := if hasSub (S "%") vn then -3 else 0
  base + ctxBonus + iconicBonus + versePenalty + pctPenalty

/-- Python `max(xs, key=lambda x: x[1])`: first element of maximal key. -/
def maxBySnd {α : Type} (first : α × Int) : List (α × Int) → α × Int
  | [] => first
  | c :: rest => maxBySnd (if c.2 > first.2 then c else first) rest

/-- Vehicles related to the character (`character_vehicles` in the source). -/
def characterVehiclesOf (cache : EntityCache) (characterName : Str) : List CacheEntry :=
  cache.vehicles.filter (fun v => isCharacterVehicleMatch characterName v.name)

/-- Scored vehicles clearing the threshold (`scored_vehicles`). -/
def scoredVehicles (E : ExtLib) (cache : EntityCache)
    (characterName originalQuery : Str) (threshold : Nat) : List (CacheEntry × Int) :=
  (characterVehiclesOf cache characterName).filterMap (fun v =>
    if calculateVehicleScore E v characterName originalQuery ≥ (threshold : Int) then
      some (v, calculateVehicleScore E v characterName originalQuery)
    else none)

def findCharacterVehicle (E : ExtLib) (cache : EntityCache)
    (characterName originalQuery : Str) (threshold : Nat) : Option EntityMatch :=
  if (characterVehiclesOf cache characterName).isEmpty then none
  else
    match scoredVehicles E cache characterName originalQuery threshold with
    | [] => none
    | c :: rest =>
        let best := maxBySnd c rest
        some { entityId := best.1.id, entityType := "vehicles",
               name := best.1.name,
               confidence := min (10 * best.2) 1000,
               matchType := "character_vehicle" }

def findBestVehicleMatch (E : ExtLib) (cache : EntityCache) (q : Str)
    (threshold : Nat := 70) : Option EntityMatch :=
  match firstGroup vehCharPatterns (strLower q) with
  | some g =>
      findCharacterVehicle E cache (strStrip g) (strLower q) (min threshold 40)
  | none =>
      -- the source passes the already-cleaned query on to
      -- `find_best_entity_match`, which cleans it again
      findBestEntityMatch E cache (cleanQueryForMatching q) (some "vehicles") threshold

/-! ## `RelationshipProcessor` (`relationship_processor.py`)

`RelationshipResult` keeps the fields the chatbot's response construction reads:
`query_type`, the primary entity's id, and the confidence.  Each regex family is
transcribed pattern-by-pattern; on the first matching family the source
*returns* the family processor's result even when it is `None`, so later
families are not tried — mirrored by the nested matches in
`processRelationshipQuery`. -/

structure RelationshipResult where
  queryType : String
  primaryId : Str
  confidence : Int
deriving DecidableEq, Repr

/-- Table order of `RelationshipProcessor._find_entity`
(note: organizations before storylines). -/
def rpTables (db : DB) : List (List EntityRow × String) :=
  [(db.characters, "characters"), (db.vehicles, "vehicles"),
   (db.locations, "locations"), (db.organizations, "organizations"),
   (db.storylines, "storylines")]

def findEntityRP (db : DB) (entityName : Str) : Option (EntityRow × String) :=
  let cleanName := pyTitle (chReplace ' ' '_' (strStrip entityName))
  (rpTables db).findSome? (fun p =>
    match p.1.find? (fun e => e.name = cleanName) with
    | some e => some (e, p.2)
    | none => (p.1.find? (fun e => likeSub cleanName e.name)).map (fun e => (e, p.2)))

def weaponKeywordsRP : List Str :=
  [S "gun", S "pistol", S "rifle", S "sword", S "knife", S "weapon",
   S "armed", S "carries"]

def processWeaponsQuery (db : DB) (entityName : Str) : Option RelationshipResult :=
  match findEntityRP db entityName with
  | none => none
  | some (e, t) =>
      if t = "vehicles" then
        let weapons := db.vehicleWeapons.filter (fun w => w.1 = e.id)
        if !weapons.isEmpty then some ⟨"weapons", e.id, 1000⟩
        else some ⟨"weapons", e.id, 600⟩
      else if t = "characters" then
        let found := weaponKeywordsRP.filter (fun kw => hasSub kw (strLower e.description))
        if !found.isEmpty then some ⟨"character_weapons", e.id, 700⟩
        else none
      else none

def processDefenseQuery (db : DB) (entityName : Str) : Option RelationshipResult :=
  match findEntityRP db entityName with
  | none => none
  | some (e, t) =>
      if t = "vehicles" then
        let defenses := db.vehicleDefensiveSystems.filter (fun d => d.1 = e.id)
        if !defenses.isEmpty then some ⟨"defenses", e.id, 1000⟩
        else some ⟨"defenses", e.id, 600⟩
      else if t = "locations" then
        some ⟨"defenses", e.id, 500⟩
      else none

def processFeaturesQuery (db : DB) (entityName : Str) : Option RelationshipResult :=
  match findEntityRP db entityName with
  | none => none
  | some (e, t) =>
      if t = "vehicles" then
        let features := db.vehicleSpecialFeatures.filter (fun f => f.1 = e.id)
        if !features.isEmpty then some ⟨"features", e.id, 1000⟩
        else some ⟨"features", e.id, 600⟩
      else if t = "locations" then
        some ⟨"features", e.id, 500⟩
      else none

/-- Any spec column other than `vehicle_id` with non-blank text
(`if key != 'vehicle_id' and value and value.strip()`). -/
def specHasDetails (row : SpecRow) : Bool :=
  !(strStrip row.maxSpeed).isEmpty || !(strStrip row.armor).isEmpty ||
    row.others.any (fun p => !(strStrip p.2).isEmpty)

def processSpecificationsQuery (db : DB) (entityName : Str) : Option RelationshipResult :=
  match findEntityRP db entityName with
  | none => none
  | some (e, t) =>
      if t ≠ "vehicles" then none
      else
        match db.vehicleSpecifications.find? (fun s => s.vehicleId = e.id) with
        | some row => if specHasDetails row then some ⟨"specifications", e.id, 1000⟩ else none
        | none => none

def processLocationQueryRP (db : DB) (entityName : Str) : Option RelationshipResult :=
  match findEntityRP db entityName with
  | none => none
  | some (e, t) =>
      if t = "characters" then
        let locs := db.characterLocations.filterMap (fun cl =>
          if cl.characterId = e.id then db.locations.find? (fun l => l.id = cl.locationId)
          else none)
        if !locs.isEmpty then some ⟨"character_locations", e.id, 1000⟩ else none
      else none

def weaponsPatterns : List (List Tok) :=
  [ -- r'what weapons does (?:the )?(.+?) have'
    [Tok.lit "what weapons does ", Tok.alts ["the ", ""], Tok.grpL, Tok.lit " have"]
  , -- r'what guns does (?:the )?(.+?) have'
    [Tok.lit "what guns does ", Tok.alts ["the ", ""], Tok.grpL, Tok.lit " have"]
  , -- r'what arms does (?:the )?(.+?) have'
    [Tok.lit "what arms does ", Tok.alts ["the ", ""], Tok.grpL, Tok.lit " have"]
  , -- r'what weapons are on (?:the )?(.+)'
    [Tok.lit "what weapons are on ", Tok.alts ["the ", ""], Tok.grpG]
  , -- r'what weapons are (?:in|inside|aboard) (?:the )?(.+)'
    [Tok.lit "what weapons are ", Tok.alts ["in", "inside", "aboard"], Tok.lit " ",
     Tok.alts ["the ", ""], Tok.grpG]
  , -- r'what are (?:the )?(.+?) weapons'
    [Tok.lit "what are ", Tok.alts ["the ", ""], Tok.grpL, Tok.lit " weapons"]
  , -- r'what is (?:the )?(.+?) armed with'
    [Tok.lit "what is ", Tok.alts ["the ", ""], Tok.grpL, Tok.lit " armed with"]
  , -- r'does (?:the )?(.+?) have weapons'
    [Tok.lit "does ", Tok.alts ["the ", ""], Tok.grpL, Tok.lit " have weapons"]
  , -- r'weapons of (?:the )?(.+)'
    [Tok.lit "weapons of ", Tok.alts ["the ", ""], Tok.grpG]
  , -- r'weapons on (?:the )?(.+)'
    [Tok.lit "weapons on ", Tok.alts ["the ", ""], Tok.grpG]
  , -- r'the (.+?) weapons'
    [Tok.lit "the ", Tok.grpL, Tok.lit " weapons"]
  , -- r'(.+?) weapons'
    [Tok.grpL, Tok.lit " weapons"] ]

def defensePatterns : List (List Tok) :=
  [ -- r'what (?:defenses|defense|armor|protection) does (?:the )?(.+?) have'
    [Tok.lit "what ", Tok.alts ["defenses", "defense", "armor", "protection"],
     Tok.lit " does ", Tok.alts ["the ", ""], Tok.grpL, Tok.lit " have"]
  , -- r'what (?:defensive systems|defenses) does (?:the )?(.+?) have'
    [Tok.lit "what ", Tok.alts ["defensive systems", "defenses"],
     Tok.lit " does ", Tok.alts ["the ", ""], Tok.grpL, Tok.lit " have"]
  , -- r'what (?:defenses|defense|armor|protection) are on (?:the )?(.+)'
    [Tok.lit "what ", Tok.alts ["defenses", "defense", "armor", "protection"],
     Tok.lit " are on ", Tok.alts ["the ", ""], Tok.grpG]
  , -- r'what (?:defenses|defense|armor|protection) are (?:in|inside) (?:the )?(.+)'
    [Tok.lit "what ", Tok.alts ["defenses", "defense", "armor", "protection"],
     Tok.lit " are ", Tok.alts ["in", "inside"], Tok.lit " ",
     Tok.alts ["the ", ""], Tok.grpG]
  , -- r'(.+?) (?:defenses|defense|armor|protection)'
    [Tok.grpL, Tok.lit " ", Tok.alts ["defenses", "defense", "armor", "protection"]]
  , -- r'(?:defenses|defense|armor|protection) of (?:the )?(.+)'
    [Tok.alts ["defenses", "defense", "armor", "protection"], Tok.lit " of ",
     Tok.alts ["the ", ""], Tok.grpG]
  , -- r'(?:defenses|defense|armor|protection) on (?:the )?(.+)'
    [Tok.alts ["defenses", "defense", "armor", "protection"], Tok.lit " on ",
     Tok.alts ["the ", ""], Tok.grpG]
  , -- r'how is (?:the )?(.+?) (?:protected|defended|armored)'
    [Tok.lit "how is ", Tok.alts ["the ", ""], Tok.grpL, Tok.lit " ",
     Tok.alts ["protected", "defended", "armored"]]
  , -- r'does (?:the )?(.+?) have (?:defenses|armor|protection)'
    [Tok.lit "does ", Tok.alts ["the ", ""], Tok.grpL, Tok.lit " have ",
     Tok.alts ["defenses", "armor", "protection"]] ]

def featuresPatterns : List (List Tok) :=
  [ -- r'what (?:features|abilities|systems|capabilities) does (?:the )?(.+?) have'
    [Tok.lit "what ", Tok.alts ["features", "abilities", "systems", "capabilities"],
     Tok.lit " does ", Tok.alts ["the ", ""], Tok.grpL, Tok.lit " have"]
  , -- r'what (?:special features|features) does (?:the )?(.+?) have'
    [Tok.lit "what ", Tok.alts ["special features", "features"],
     Tok.lit " does ", Tok.alts ["the ", ""], Tok.grpL, Tok.lit " have"]
  , -- r'what (?:features|abilities|systems|capabilities) are on (?:the )?(.+)'
    [Tok.lit "what ", Tok.alts ["features", "abilities", "systems", "capabilities"],
     Tok.lit " are on ", Tok.alts ["the ", ""], Tok.grpG]
  , -- r'what (?:features|abilities|systems|capabilities) are (?:in|inside) (?:the )?(.+)'
    [Tok.lit "what ", Tok.alts ["features", "abilities", "systems", "capabilities"],
     Tok.lit " are ", Tok.alts ["in", "inside"], Tok.lit " ",
     Tok.alts ["the ", ""], Tok.grpG]
  , -- r'(.+?) (?:features|abilities|systems|capabilities)'
    [Tok.grpL, Tok.lit " ", Tok.alts ["features", "abilities", "systems", "capabilities"]]
  , -- r'(?:features|abilities|systems) of (?:the )?(.+)'
    [Tok.alts ["features", "abilities", "systems"], Tok.lit " of ",
     Tok.alts ["the ", ""], Tok.grpG]
  , -- r'(?:features|abilities|systems) on (?:the )?(.+)'
    [Tok.alts ["features", "abilities", "systems"], Tok.lit " on ",
     Tok.alts ["the ", ""], Tok.grpG]
  , -- r'what can (?:the )?(.+?) do'
    [Tok.lit "what can ", Tok.alts ["the ", ""], Tok.grpL, Tok.lit " do"]
  , -- r'does (?:the )?(.+?) have (?:features|abilities|systems)'
    [Tok.lit "does ", Tok.alts ["the ", ""], Tok.grpL, Tok.lit " have ",
     Tok.alts ["features", "abilities", "systems"]] ]

def specPatterns : List (List Tok) :=
  [ -- r'(?:specs|specifications|details) (?:of|for) (.+?)'
    [Tok.alts ["specs", "specifications", "details"], Tok.lit " ",
     Tok.alts ["of", "for"], Tok.lit " ", Tok.grpL]
  , -- r'(.+?) (?:specs|specifications|technical details)'
    [Tok.grpL, Tok.lit " ", Tok.alts ["specs", "specifications", "technical details"]]
  , -- r'what (?:are|is) (.+?) (?:specs|specifications)'
    [Tok.lit "what ", Tok.alts ["are", "is"], Tok.lit " ", Tok.grpL, Tok.lit " ",
     Tok.alts ["specs", "specifications"]] ]

def locationPatternsRP : List (List Tok) :=
  [ -- r'where (?:does|do|is|are) (.+?) (?:live|stay|operate|hang out|work)'
    [Tok.lit "where ", Tok.alts ["does", "do", "is", "are"], Tok.lit " ", Tok.grpL,
     Tok.lit " ", Tok.alts ["live", "stay", "operate", "hang out", "work"]]
  , -- r'(?:location|locations) (?:of|for) (.+?)'
    [Tok.alts ["location", "locations"], Tok.lit " ", Tok.alts ["of", "for"],
     Tok.lit " ", Tok.grpL]
  , -- r'(.+?) (?:location|base|hideout|lair)'
    [Tok.grpL, Tok.lit " ", Tok.alts ["location", "base", "hideout", "lair"]] ]

def processRelationshipQuery (db : DB) (q : Str) : Option RelationshipResult :=
  let ql := strLower q
  match firstGroup weaponsPatterns ql with
  | some g => processWeaponsQuery db (strStrip g)
  | none =>
  match firstGroup defensePatterns ql with
  | some g => processDefenseQuery db (strStrip g)
  | none =>
  match firstGroup featuresPatterns ql with
  | some g => processFeaturesQuery db (strStrip g)
  | none =>
  match firstGroup specPatterns ql with
  | some g => processSpecificationsQuery db (strStrip g)
  | none =>
  match firstGroup locationPatternsRP ql with
  | some g => processLocationQueryRP db (strStrip g)
  | none => none

/-! ## `IntelligentSearchEngine` (`intelligent_search.py`) -/

/-- Table order used throughout `intelligent_search.py`. -/
def isTables (db : DB) : List (List EntityRow × String) :=
  [(db.characters, "characters"), (db.vehicles, "vehicles"),
   (db.locations, "locations"), (db.storylines, "storylines"),
   (db.organizations, "organizations")]

def mkSR (e : EntityRow) (tname : String) (conf : Int) (mt : String) : SearchResult :=
  ⟨e.id, tname, e.name, e.description, conf, mt⟩

def exactNameSearch (db : DB) (q : Str) : Option SearchResult :=
  let cleanQ := pyTitle (chReplace ' ' '_' q)
  (isTables db).findSome? (fun p =>
    match p.1.find? (fun e => e.name = cleanQ) with
    | some e => some (mkSR e p.2 1000 "exact")
    | none =>
        (p.1.find? (fun e => e.name = pyTitle q || e.name = strUpper q)).map
          (fun e => mkSR e p.2 1000 "exact"))

def fuzzyNameSearch (E : ExtLib) (db : DB) (q : Str) : Option SearchResult :=
  let candidates := (isTables db).flatMap (fun p =>
    p.1.filterMap (fun row =>
      let nameClean := chReplace '_' ' ' row.name
      let rW := 10 * (E.simW (strLower q) (strLower nameClean) : Int)
      let rP := 10 * (E.simPart (strLower q) (strLower nameClean) : Int)
      let rT := 10 * (E.simTok (strLower q) (strLower nameClean) : Int)
      let fuzzy := max rW (max rP rT)
      if fuzzy > 500 then
        some ((mkSR row p.2 fuzzy "fuzzy"),
              fuzzy + 10 * (importanceBonusPct row.name p.2 : Int))
      else none))
  match candidates with
  | [] => none
  | c :: rest => some (maxBySnd c rest).1

/-- `ORDER BY LENGTH(description) ASC LIMIT 1` — first row of minimal length. -/
def minByDescLen (first : EntityRow) : List EntityRow → EntityRow
  | [] => first
  | e :: rest =>
      minByDescLen (if e.description.length < first.description.length then e else first) rest

def descriptionSearch (db : DB) (q : Str) : Option SearchResult :=
  (isTables db).findSome? (fun p =>
    match p.1.filter (fun e => likeSub q e.description) with
    | [] => none
    | e :: rest => some (mkSR (minByDescLen e rest) p.2 600 "description"))

def confOver (o : Option SearchResult) (t : Int) : Bool :=
  match o with
  | some r => r.confidence > t
  | none => false

def searchSingleEntity (E : ExtLib) (db : DB) (q : Str) : Option SearchResult :=
  let result := exactNameSearch db q
  let ftsResult := E.fts q
  let fuzzyResult := fuzzyNameSearch E db q
  let descResult := descriptionSearch db q
  if confOver result 900 then result
  else if confOver ftsResult 800 then ftsResult
  else if confOver fuzzyResult 700 then fuzzyResult
  else if descResult.isSome then descResult
  else result.orElse (fun _ => ftsResult.orElse (fun _ =>
    fuzzyResult.orElse (fun _ => descResult)))

def comparisonPatternsIS : List (List Tok) :=
  [ -- r'compare (.+?) (?:to|with|and) (.+?)(?:\?|$)'
    [Tok.lit "compare ", Tok.grpL, Tok.lit " ", Tok.alts ["to", "with", "and"],
     Tok.lit " ", Tok.grpL, Tok.eosQ]
  , -- r'(.+?) (?:vs|versus) (.+?)(?:\?|$)'
    [Tok.grpL, Tok.lit " ", Tok.alts ["vs", "versus"], Tok.lit " ", Tok.grpL, Tok.eosQ]
  , -- r'difference between (.+?) and (.+?)(?:\?|$)'
    [Tok.lit "difference between ", Tok.grpL, Tok.lit " and ", Tok.grpL, Tok.eosQ]
  , -- r'(.+?) or (.+?)(?:\?|$)'
    [Tok.grpL, Tok.lit " or ", Tok.grpL, Tok.eosQ] ]

def searchMultiEntity (E : ExtLib) (db : DB) (q : Str) :
    Option (SearchResult × SearchResult) :=
  comparisonPatternsIS.findSome? (fun p =>
    match grp2 (reSearch p (strLower q)) with
    | some g =>
        match searchSingleEntity E db (strStrip g.1),
              searchSingleEntity E db (strStrip g.2) with
        | some e1, some e2 => some (e1, e2)
        | _, _ => none
    | none => none)

def locationPatternsIS : List (List Tok) :=
  [ -- r'where (?:does|do|is) (.+?) (?:park|live|stay|located|based|reside)(?:\?|$)'
    [Tok.lit "where ", Tok.alts ["does", "do", "is"], Tok.lit " ", Tok.grpL,
     Tok.lit " ", Tok.alts ["park", "live", "stay", "located", "based", "reside"],
     Tok.eosQ]
  , -- r'(?:where|location) (?:of|for) (.+?)(?:\?|$)'
    [Tok.alts ["where", "location"], Tok.lit " ", Tok.alts ["of", "for"],
     Tok.lit " ", Tok.grpL, Tok.eosQ]
  , -- r'(.+?) (?:location|base|home|residence)(?:\?|$)'
    [Tok.grpL, Tok.lit " ", Tok.alts ["location", "base", "home", "residence"],
     Tok.eosQ]
  , -- r'where (?:does|do) (.+?) (?:hang out|hide|operate)(?:\?|$)'
    [Tok.lit "where ", Tok.alts ["does", "do"], Tok.lit " ", Tok.grpL, Tok.lit " ",
     Tok.alts ["hang out", "hide", "operate"], Tok.eosQ] ]

def usagePatternsIS : List (List Tok) :=
  [ -- r'who (?:uses|drives|operates|pilots) (.+?)(?:\?|$)'
    [Tok.lit "who ", Tok.alts ["uses", "drives", "operates", "pilots"],
     Tok.lit " ", Tok.grpL, Tok.eosQ]
  , -- r'(.+?) (?:user|driver|pilot|operator)(?:\?|$)'
    [Tok.grpL, Tok.lit " ", Tok.alts ["user", "driver", "pilot", "operator"],
     Tok.eosQ] ]

def locationInferences : List (Str × List Str) :=
  [ (S "penguin", [S "iceberg_lounge", S "arctic_world", S "old_zoo"])
  , (S "joker", [S "ace_chemical", S "amusement_mile"])
  , (S "batman", [S "batcave", S "wayne_manor"])
  , (S "catwoman", [S "museum", S "rooftop"]) ]

def findEntityLocation (E : ExtLib) (db : DB) (entityName : Str) :
    Option SearchResult :=
  match searchSingleEntity E db entityName with
  | none => none
  | some entity =>
      let joined := db.characterLocations.filterMap (fun cl =>
        if cl.characterId = entity.entityId then
          db.locations.find? (fun l => l.id = cl.locationId)
        else none)
      match joined with
      | l :: _ => some ⟨l.id, "locations", l.name, l.description, 900, "relationship"⟩
      | [] =>
          let batcaveHit :=
            if entity.entityType = "vehicles" && hasSub (S "bat") (strLower entity.name) then
              db.locations.find? (fun l =>
                likeSub (S "Batcave") l.name || likeSub2 (S "Bat") (S "Cave") l.name)
            else none
          match batcaveHit with
          | some l => some ⟨l.id, "locations", l.name, l.description, 800, "inference"⟩
          | none =>
              if entity.entityType = "characters" then
                let entityNameClean := chReplace '_' ' ' (strLower entity.name)
                locationInferences.findSome? (fun p =>
                  if hasSub p.1 entityNameClean then
                    p.2.findSome? (fun ln =>
                      (db.locations.find? (fun l => likeSub ln l.name)).map (fun l =>
                        ⟨l.id, "locations", l.name, l.description, 800, "inference"⟩))
                  else none)
              else none

def findEntityUsers (E : ExtLib) (db : DB) (entityName : Str) :
    Option SearchResult :=
  match searchSingleEntity E db entityName with
  | none => none
  | some entity =>
      if entity.entityType = "vehicles" then
        let joined := db.vehicleUsers.filterMap (fun vu =>
          if vu.1 = entity.entityId then db.characters.find? (fun c => c.id = vu.2)
          else none)
        match joined with
        | c :: _ => some ⟨c.id, "characters", c.name, c.description, 900, "relationship"⟩
        | [] =>
            if hasSub (S "bat") (strLower entity.name) then
              (db.characters.find? (fun c => likeSub (S "Batman") c.name)).map (fun c =>
                ⟨c.id, "characters", c.name, c.description, 800, "inference"⟩)
            else none
      else none

def searchByRelationship (E : ExtLib) (db : DB) (q : Str) : Option SearchResult :=
  let ql := strLower q
  match firstGroup locationPatternsIS ql with
  | some g => findEntityLocation E db (strStrip g)
  | none =>
  match firstGroup usagePatternsIS ql with
  | some g => findEntityUsers E db (strStrip g)
  | none => none

/-! ## `EnhancedComparisonEngine` (`enhanced_comparisons.py`)

Only the `winner` and `confidence` of a comparison flow into the response
metadata; explanation text is not modelled.  Comparison outcomes are pairs
`(winner?, confidence)`. -/

def strengthRankings : List (Str × Int) :=
  [ (S "superman", 10), (S "doomsday", 10), (S "darkseid", 10)
  , (S "bane", 9), (S "killer_croc", 8), (S "clayface", 8)
  , (S "batman", 7), (S "nightwing", 6), (S "robin", 5), (S "batgirl", 5)
  , (S "catwoman", 5), (S "two-face", 4), (S "penguin", 3), (S "joker", 3)
  , (S "riddler", 2), (S "scarecrow", 2), (S "alfred", 2) ]

def intelligenceRankings : List (Str × Int) :=
  [ (S "batman", 10), (S "oracle", 10), (S "mr_terrific", 10)
  , (S "lex_luthor", 9), (S "riddler", 8), (S "ra\x27s_al_ghul", 8)
  , (S "joker", 7), (S "two-face", 7), (S "penguin", 6)
  , (S "nightwing", 7), (S "robin", 6), (S "catwoman", 6)
  , (S "bane", 6), (S "scarecrow", 7), (S "alfred", 8) ]

def speedRankings : List (Str × Int) :=
  [ (S "flash", 10), (S "superman", 9)
  , (S "nightwing", 7), (S "batman", 6), (S "robin", 6)
  , (S "catwoman", 7), (S "batgirl", 6)
  , (S "joker", 4), (S "bane", 3), (S "penguin", 2), (S "riddler", 3) ]

def combatSkillRankings : List (Str × Int) :=
  [ (S "batman", 10), (S "lady_shiva", 10), (S "ra\x27s_al_ghul", 9)
  , (S "nightwing", 8), (S "robin", 7), (S "batgirl", 8)
  , (S "catwoman", 7), (S "bane", 8), (S "joker", 5)
  , (S "two-face", 6), (S "penguin", 3), (S "riddler", 4) ]

/-- `self.character_rankings` keyed by ranking type (keys: strength,
intelligence, speed, combat_skill). -/
def characterRankings : List (Str × List (Str × Int)) :=
  [ (S "strength", strengthRankings)
  , (S "intelligence", intelligenceRankings)
  , (S "speed", speedRankings)
  , (S "combat_skill", combatSkillRankings) ]

/-- `self.comparison_patterns[...]['logic']` of the enhanced engine
(keys: strength, intelligence, speed, combat, armor, weapons). -/
def enginePatternsLogic : List (String × Str) :=
  [ ("strength", S "strength_ranking")
  , ("intelligence", S "intelligence_ranking")
  , ("speed", S "speed_comparison")
  , ("combat", S "combat_ranking")
  , ("armor", S "armor_comparison")
  , ("weapons", S "weapons_comparison") ]

def charAliasesEC : List (Str × Str) :=
  [ (S "dark knight", S "batman")
  , (S "caped crusader", S "batman")
  , (S "world\x27s greatest detective", S "batman")
  , (S "bruce wayne", S "batman")
  , (S "clown prince of crime", S "joker")
  , (S "mr j", S "joker")
  , (S "harvey dent", S "two-face")
  , (S "dick grayson", S "nightwing")
  , (S "tim drake", S "robin")
  , (S "jason todd", S "robin")
  , (S "damian wayne", S "robin")
  , (S "selina kyle", S "catwoman")
  , (S "oswald cobblepot", S "penguin")
  , (S "edward nygma", S "riddler")
  , (S "jonathan crane", S "scarecrow") ]

def normalizeCharacterName (name : Str) : Str :=
  let nl := chReplace '-' ' ' (chReplace '_' ' ' (strLower name))
  match charAliasesEC.find? (fun p => p.1 = nl) with
  | some p => p.2
  | none => chReplace ' ' '_' nl

def vehAliasesEC : List (Str × Str) :=
  [ (S "batcar", S "batmobile")
  , (S "batplane", S "batwing")
  , (S "batship", S "batboat")
  , (S "batsubmarine", S "batsub")
  , (S "batmotorcycle", S "batcycle") ]

def normalizeVehicleName (name : Str) : Str :=
  let nl := (strLower name).filter (fun c => c ≠ '_' && c ≠ '-' && c ≠ ' ')
  match vehAliasesEC.find? (fun p => p.1 = nl) with
  | some p => p.2
  | none => nl

def estimateCharacterScore (name : Str) : Int :=
  let nl := strLower name
  if [S "batman", S "robin", S "nightwing", S "batgirl"].any (fun h => hasSub h nl) then 7
  else if [S "joker", S "penguin", S "riddler"].any (fun h => hasSub h nl) then 4
  else if [S "bane", S "killer", S "croc", S "clay"].any (fun h => hasSub h nl) then 8
  else 5

def getCharacterScore (nameKey : Str) (rankings : List (Str × Int))
    (originalName : Str) : Int :=
  match rankings.find? (fun p => p.1 = nameKey) with
  | some p => p.2
  | none =>
      match rankings.find? (fun p => hasSub p.1 nameKey || hasSub nameKey p.1) with
      | some p => p.2
      | none => estimateCharacterScore originalName

/-- `enhanced_character_comparison`; `none` models the uncaught `KeyError` when
`comparison_type` is not a key of the engine's pattern table (e.g. `'size'`). -/
def enhancedCharacterComparison (char1Name char2Name : Str) (comparisonType : String) :
    Option (Option Str × Int) :=
  match enginePatternsLogic.find? (fun p => p.1 = comparisonType) with
  | none => none
  | some p =>
      let rankingType := strReplace (S "_comparison") [] (strReplace (S "_ranking") [] p.2)
      let rankings :=
        ((characterRankings.find? (fun r => r.1 = rankingType)).map (·.2)).getD []
      let score1 := getCharacterScore (normalizeCharacterName char1Name) rankings char1Name
      let score2 := getCharacterScore (normalizeCharacterName char2Name) rankings char2Name
      if score1 > score2 then some (some char1Name, 800)
      else if score2 > score1 then some (some char2Name, 800)
      else some (none, 600)

/-! ### Vehicle specifications and numeric speed parsing -/

structure VehSpecs where
  maxSpeed : Option Str
  armorRating : Option Int
  weaponsCount : Option Nat
  defenseCount : Option Nat
deriving DecidableEq, Repr

/-- `self.vehicle_specs` fallback table (the `maneuverability` column is never
read by a comparison and is omitted). -/
def vehicleSpecsTable : List (Str × VehSpecs) :=
  [ (S "batmobile", ⟨some (S "200 mph"), some 9, some 8, none⟩)
  , (S "batwing", ⟨some (S "400 mph"), some 6, some 10, none⟩)
  , (S "batboat", ⟨some (S "80 mph"), some 7, some 6, none⟩)
  , (S "batcycle", ⟨some (S "180 mph"), some 4, some 3, none⟩)
  , (S "bat-sub", ⟨some (S "60 mph"), some 8, some 7, none⟩) ]

def estimateVehicleSpecs (name : Str) : VehSpecs :=
  let nl := strLower name
  if hasSub (S "mobile") nl || hasSub (S "car") nl then
    ⟨some (S "150 mph"), some 6, some 5, none⟩
  else if hasSub (S "wing") nl || hasSub (S "plane") nl then
    ⟨some (S "300 mph"), some 5, some 7, none⟩
  else if hasSub (S "boat") nl || hasSub (S "ship") nl then
    ⟨some (S "70 mph"), some 6, some 4, none⟩
  else if hasSub (S "cycle") nl || hasSub (S "bike") nl then
    ⟨some (S "120 mph"), some 3, some 2, none⟩
  else ⟨some (S "100 mph"), some 4, some 3, none⟩

/-- `COUNT` over the double `LEFT JOIN` of `_get_vehicle_specs`: joining both
weapons and defensive systems multiplies the row count, so
`COUNT(vw.weapon) = |w| * max(|d|,1)` when `|w| > 0`, and `0` otherwise. -/
def crossCount (a b : Nat) : Nat :=
  if a = 0 then 0 else a * max b 1

def getVehicleSpecs (db : DB) (originalName normalizedName : Str) : VehSpecs :=
  match db.vehicles.find? (fun v => likeSub normalizedName v.name) with
  | some v =>
      let spec := db.vehicleSpecifications.find? (fun s => s.vehicleId = v.id)
      let ms := ((spec.map (·.maxSpeed)).getD [])
      let armor := ((spec.map (·.armor)).getD [])
      let w := (db.vehicleWeapons.filter (fun p => p.1 = v.id)).length
      let d := (db.vehicleDefensiveSystems.filter (fun p => p.1 = v.id)).length
      { maxSpeed := some (if ms.isEmpty then S "Unknown" else ms)
        armorRating := some (if !armor.isEmpty then 5 else 3)
        weaponsCount := some (crossCount w d)
        defenseCount := some (crossCount d w) }
  | none =>
      match vehicleSpecsTable.find? (fun p => p.1 = normalizedName) with
      | some p => p.2
      | none => estimateVehicleSpecs originalName

/-- Exact fraction `num / den` (`den` a power of ten), for parsed speeds. -/
structure Frac where
  num : Nat
  den : Nat
deriving DecidableEq, Repr

def fracGt (a b : Frac) : Bool := a.num * b.den > b.num * a.den

def digitsVal (ds : Str) : Nat :=
  ds.foldl (fun acc c => acc * 10 + (c.toNat - '0'.toNat)) 0

/-- First match of `(\d+(?:\.\d+)?)`: integer digits and optional fraction digits. -/
def findFirstNum : Str → Option (Str × Str)
  | [] => none
  | c :: tl =>
      if c.isDigit then
        let intPart := (c :: tl).takeWhile Char.isDigit
        let rest := (c :: tl).dropWhile Char.isDigit
        match rest with
        | '.' :: d :: _ =>
            if d.isDigit then some (intPart, (rest.drop 1).takeWhile Char.isDigit)
            else some (intPart, [])
        | _ => some (intPart, [])
      else findFirstNum tl

/-- `_extract_speed_number`: 0.0 for empty/`'Unknown'`/digit-free strings. -/
def extractSpeedNumber (s : Str) : Frac :=
  if s.isEmpty || s = S "Unknown" then ⟨0, 1⟩
  else
    match findFirstNum s with
    | none => ⟨0, 1⟩
    | some p => ⟨digitsVal (p.1 ++ p.2), 10 ^ p.2.length⟩

/-- `_compare_vehicle_speed`. -/
def compareVehicleSpeed (name1 name2 : Str) (specs1 specs2 : VehSpecs) :
    Option Str × Int :=
  let speed1 := extractSpeedNumber (specs1.maxSpeed.getD (S "0 mph"))
  let speed2 := extractSpeedNumber (specs2.maxSpeed.getD (S "0 mph"))
  if fracGt speed1 speed2 then (some name1, 800)
  else if fracGt speed2 speed1 then (some name2, 800)
  else (none, 600)

/-- `_compare_vehicle_armor`. -/
def compareVehicleArmor (name1 name2 : Str) (specs1 specs2 : VehSpecs) :
    Option Str × Int :=
  let total1 := specs1.armorRating.getD 3 + (specs1.defenseCount.getD 0 : Int)
  let total2 := specs2.armorRating.getD 3 + (specs2.defenseCount.getD 0 : Int)
  if total1 > total2 then (some name1, 700)
  else if total2 > total1 then (some name2, 700)
  else (none, 700)

/-- `_compare_vehicle_weapons`. -/
def compareVehicleWeapons (name1 name2 : Str) (specs1 specs2 : VehSpecs) :
    Option Str × Int :=
  let w1 := specs1.weaponsCount.getD 0
  let w2 := specs2.weaponsCount.getD 0
  if w1 > w2 then (some name1, 700)
  else if w2 > w1 then (some name2, 700)
  else (none, 700)

/-- Overall score `speed/100 + armor + weapons` as an exact fraction numerator
over denominator `100 * den`. -/
def overallNum (sp : Frac) (armor : Int) (w : Nat) : Int :=
  (sp.num : Int) + (armor + (w : Int)) * (100 * (sp.den : Int))

/-- `_compare_vehicle_overall`. -/
def compareVehicleOverall (name1 name2 : Str) (specs1 specs2 : VehSpecs) :
    Option Str × Int :=
  let sp1 := extractSpeedNumber (specs1.maxSpeed.getD (S "0"))
  let sp2 := extractSpeedNumber (specs2.maxSpeed.getD (S "0"))
  let n1 := overallNum sp1 (specs1.armorRating.getD 3) (specs1.weaponsCount.getD 0)
  let n2 := overallNum sp2 (specs2.armorRating.getD 3) (specs2.weaponsCount.getD 0)
  if n1 * (100 * (sp2.den : Int)) > n2 * (100 * (sp1.den : Int)) then (some name1, 600)
  else if n2 * (100 * (sp1.den : Int)) > n1 * (100 * (sp2.den : Int)) then (some name2, 600)
  else (none, 600)

/-- `enhanced_vehicle_comparison`. -/
def enhancedVehicleComparison (db : DB) (vehicle1Name vehicle2Name : Str)
    (comparisonType : String) : Option Str × Int :=
  let k1 := normalizeVehicleName vehicle1Name
  let k2 := normalizeVehicleName vehicle2Name
  let specs1 := getVehicleSpecs db vehicle1Name k1
  let specs2 := getVehicleSpecs db vehicle2Name k2
  if comparisonType = "speed" then compareVehicleSpeed vehicle1Name vehicle2Name specs1 specs2
  else if comparisonType = "armor" then compareVehicleArmor vehicle1Name vehicle2Name specs1 specs2
  else if comparisonType = "weapons" then compareVehicleWeapons vehicle1Name vehicle2Name specs1 specs2
  else compareVehicleOverall vehicle1Name vehicle2Name specs1 specs2

/-! ## `ConversationIntelligence` (`conversation_intelligence.py`) -/

/-- `self.comparison_patterns` keywords, in insertion order. -/
def convComparisonKeywords : List (String × List Str) :=
  [ ("speed", [S "faster", S "speed", S "quick", S "swift"])
  , ("strength", [S "stronger", S "strength", S "power", S "tough"])
  , ("intelligence", [S "smarter", S "intelligent", S "clever", S "genius"])
  , ("size", [S "bigger", S "larger", S "size", S "massive"])
  , ("armor", [S "armored", S "protected", S "defensive", S "armor"]) ]

def vsPatternsCI : List (List Tok) :=
  [ -- r'(.+?)\s+(?:vs|versus|against)\s+(.+?)(?:\?|$)'
    [Tok.grpL, Tok.wsP, Tok.alts ["vs", "versus", "against"], Tok.wsP, Tok.grpL,
     Tok.eosQ]
  , -- r'who.*(?:faster|stronger|smarter|bigger).*?:\s*(.+?)\s+or\s+(.+?)(?:\?|$)'
    [Tok.lit "who", Tok.anyG, Tok.alts ["faster", "stronger", "smarter", "bigger"],
     Tok.anyL, Tok.lit ":", Tok.wsS, Tok.grpL, Tok.wsP, Tok.lit "or", Tok.wsP,
     Tok.grpL, Tok.eosQ]
  , -- r'(?:faster|stronger|smarter|bigger).*?:\s*(.+?)\s+(?:vs|versus|or)\s+(.+?)(?:\?|$)'
    [Tok.alts ["faster", "stronger", "smarter", "bigger"], Tok.anyL, Tok.lit ":",
     Tok.wsS, Tok.grpL, Tok.wsP, Tok.alts ["vs", "versus", "or"], Tok.wsP,
     Tok.grpL, Tok.eosQ] ]

def parseComparisonQuery (q : Str) : Option (String × Str × Str) :=
  let ql := strLower q
  match convComparisonKeywords.find? (fun p => p.2.any (fun kw => hasSub kw ql)) with
  | none => none
  | some p =>
      (vsPatternsCI.findSome? (fun pat => grp2 (reSearch pat ql))).map (fun g =>
        (p.1, strStrip g.1, strStrip g.2))

/-- Ids and confidence of a resolved comparison (`ComparisonResult` metadata). -/
structure ConvCompResult where
  entity1Id : Str
  entity2Id : Str
  confidence : Int
deriving DecidableEq, Repr

/-- `crashed` models the uncaught `KeyError` raised by
`enhanced_character_comparison` for `comparison_type = 'size'`. -/
inductive CICompOutcome where
  | crashed
  | noMatch
  | ok (r : ConvCompResult)
deriving DecidableEq, Repr

/-- `_extract_speed_from_vehicle`. -/
def extractSpeedFromVehicle (db : DB) (vehicleId : Str) : Option Str :=
  match db.vehicleSpecifications.find? (fun s => s.vehicleId = vehicleId) with
  | some row => if row.maxSpeed.isEmpty then none else some row.maxSpeed
  | none => none

/-- First match of `(\d+)` as a number. -/
def firstDigitRun : Str → Option Nat
  | [] => none
  | c :: tl =>
      if c.isDigit then some (digitsVal ((c :: tl).takeWhile Char.isDigit))
      else firstDigitRun tl

/-- Small rankings of `_determine_strength_winner` (conversation intelligence). -/
def strengthRankingsCI : List (Str × Int) :=
  [ (S "batman", 7), (S "superman", 10), (S "bane", 9), (S "joker", 3)
  , (S "nightwing", 6), (S "robin", 5), (S "catwoman", 5), (S "two-face", 4) ]

def intelligenceRankingsCI : List (Str × Int) :=
  [ (S "batman", 10), (S "lex luthor", 9), (S "riddler", 8), (S "joker", 7)
  , (S "nightwing", 7), (S "robin", 6), (S "catwoman", 6), (S "two-face", 5) ]

/-- The source's `for char, score in rankings.items(): if char in name: score = ...`
— every entry is tested, the **last** matching key wins; default 5. -/
def ciDictScore (dict : List (Str × Int)) (nameLower : Str) : Int :=
  dict.foldl (fun acc p => if hasSub p.1 nameLower then p.2 else acc) 5

def ciDictWinner (dict : List (Str × Int)) (name1 name2 : Str) : Option Str :=
  let nl1 := chReplace '_' ' ' (strLower name1)
  let nl2 := chReplace '_' ' ' (strLower name2)
  let s1 := ciDictScore dict nl1
  let s2 := ciDictScore dict nl2
  if s1 > s2 then some name1
  else if s2 > s1 then some name2
  else none

/-- `_compare_entities_fallback`: the winner, with the source's final
`confidence = 0.7 if winner else 0.5`. -/
def fallbackCompare (db : DB) (e1 e2 : EntityRow) (t1 t2 : String)
    (comparisonType : String) : Option Str × Int :=
  let winner : Option Str :=
    if comparisonType = "speed" && t1 = "vehicles" && t2 = "vehicles" then
      match extractSpeedFromVehicle db e1.id, extractSpeedFromVehicle db e2.id with
      | some sp1, some sp2 =>
          -- float(re.search(r'(\d+)', ...)); a digit-free string raises and is
          -- caught, leaving no winner
          match firstDigitRun sp1, firstDigitRun sp2 with
          | some n1, some n2 =>
              if n1 > n2 then some e1.name
              else if n2 > n1 then some e2.name
              else none
          | _, _ => none
      | _, _ => none
    else if comparisonType = "strength" && t1 = "characters" && t2 = "characters" then
      ciDictWinner strengthRankingsCI e1.name e2.name
    else if comparisonType = "intelligence" && t1 = "characters" && t2 = "characters" then
      ciDictWinner intelligenceRankingsCI e1.name e2.name
    else if comparisonType = "armor" && t1 = "vehicles" && t2 = "vehicles" then
      let c1 := (db.vehicleDefensiveSystems.filter (fun p => p.1 = e1.id)).length
      let c2 := (db.vehicleDefensiveSystems.filter (fun p => p.1 = e2.id)).length
      if c1 > c2 then some e1.name
      else if c2 > c1 then some e2.name
      else none
    else none
  (winner, if winner.isSome then 700 else 500)

/-- `_enhanced_compare_entities`. -/
def enhancedCompareEntities (db : DB) (e1 e2 : EntityRow) (t1 t2 : String)
    (comparisonType : String) : Option (Option Str × Int) :=
  if t1 = "characters" && t2 = "characters" then
    enhancedCharacterComparison e1.name e2.name comparisonType
  else if t1 = "vehicles" && t2 = "vehicles" then
    some (enhancedVehicleComparison db e1.name e2.name comparisonType)
  else
    some (fallbackCompare db e1 e2 t1 t2 comparisonType)

/-- `handle_comparative_query`. -/
def handleComparativeQuery (E : ExtLib) (db : DB) (cache : EntityCache) (q : Str) :
    CICompOutcome :=
  match parseComparisonQuery q with
  | none => .noMatch
  | some (ct, n1, n2) =>
      match findBestEntityMatch E cache n1 none 70,
            findBestEntityMatch E cache n2 none 70 with
      | some m1, some m2 =>
          match getEntityById db m1.entityId m1.entityType,
                getEntityById db m2.entityId m2.entityType with
          | some e1, some e2 =>
              match enhancedCompareEntities db e1 e2 m1.entityType m2.entityType ct with
              | none => .crashed
              | some r => .ok ⟨m1.entityId, m2.entityId, r.2⟩
          | _, _ => .noMatch
      | _, _ => .noMatch

/-! ### Relationship queries (`handle_relationship_query`) -/

def ciRelPatterns : List (List Tok) :=
  [ -- r'who\s+(?:are|is)\s+(.+?)(?:\'s|s)\s+(?:allies|enemies|family|villains|friends)'
    [Tok.lit "who", Tok.wsP, Tok.alts ["are", "is"], Tok.wsP, Tok.grpL,
     Tok.alts ["\x27s", "s"], Tok.wsP,
     Tok.alts ["allies", "enemies", "family", "villains", "friends"]]
  , -- r'(.+?)(?:\'s|s)\s+(?:allies|enemies|family|villains|friends)'
    [Tok.grpL, Tok.alts ["\x27s", "s"], Tok.wsP,
     Tok.alts ["allies", "enemies", "family", "villains", "friends"]]
  , -- r'(?:allies|enemies|family|villains|friends).*?(?:of|for)\s+(.+?)(?:\?|$)'
    [Tok.alts ["allies", "enemies", "family", "villains", "friends"], Tok.anyL,
     Tok.alts ["of", "for"], Tok.wsP, Tok.grpL, Tok.eosQ]
  , -- r'what\s+(?:are|is)\s+(.+?)(?:\'s|s)\s+(?:allies|enemies)'
    [Tok.lit "what", Tok.wsP, Tok.alts ["are", "is"], Tok.wsP, Tok.grpL,
     Tok.alts ["\x27s", "s"], Tok.wsP, Tok.alts ["allies", "enemies"]]
  , -- r'list.*?(.+?)(?:\'s|s)\s+(?:enemies|allies)'
    [Tok.lit "list", Tok.anyL, Tok.grpL, Tok.alts ["\x27s", "s"], Tok.wsP,
     Tok.alts ["enemies", "allies"]]
  , -- r'who.*?(?:helps|fights)\s+(.+?)(?:\?|$)'
    [Tok.lit "who", Tok.anyL, Tok.alts ["helps", "fights"], Tok.wsP, Tok.grpL,
     Tok.eosQ] ]

def parseRelationshipQueryCI (q : Str) : Option (Str × String) :=
  let ql := strLower q
  let relType : Option String :=
    if [S "enemies", S "villains", S "foes", S "rogues"].any (fun w => hasSub w ql) then
      some "enemies"
    else if [S "allies", S "friends", S "partners", S "helpers"].any (fun w => hasSub w ql) then
      some "allies"
    else if [S "family", S "relatives"].any (fun w => hasSub w ql) then
      some "family"
    else none
  match relType with
  | none => none
  | some rt =>
      (firstGroup ciRelPatterns ql).map (fun g =>
        (strStrip (strReplace (S "the ") [] (strStrip g)), rt))

def batmanRelTable : String → List Str
  | "allies" =>
      [S "Robin", S "Nightwing", S "Batgirl", S "Alfred_Pennyworth",
       S "Commissioner_Gordon", S "Oracle", S "Red_Robin", S "Catwoman"]
  | "enemies" =>
      [S "Joker", S "Two-Face", S "Penguin", S "Riddler", S "Bane", S "Scarecrow",
       S "Poison_Ivy", S "Mr_Freeze", S "Harley_Quinn", S "Ra\x27s_al_Ghul"]
  | _ => []

def jokerRelTable : String → List Str
  | "allies" => [S "Harley_Quinn", S "Penguin"]
  | "enemies" => [S "Batman", S "Robin", S "Nightwing", S "Batgirl"]
  | _ => []

/-- `_get_predefined_relationships`. -/
def getPredefinedRelationships (db : DB) (entityId : Str) (relType : String) :
    List Str :=
  match db.characters.find? (fun c => c.id = entityId) with
  | none => []
  | some c =>
      let entityName := chReplace '_' ' ' (strLower c.name)
      let target :=
        if hasSub (S "batman") entityName || hasSub (S "bruce wayne") entityName then
          batmanRelTable relType
        else if hasSub (S "joker") entityName then
          jokerRelTable relType
        else if relType = "enemies" then
          if !hasSub (S "batman") entityName then [S "Batman"] else []
        else []
      (target.take 8).filterMap (fun nm =>
        (db.characters.find? (fun ch => likeSub nm ch.name)).map (·.id))

/-- `_find_related_entities` (only characters have relationship rows). -/
def findRelatedEntitiesCI (db : DB) (entityId : Str) (entityType relType : String) :
    List Str :=
  if entityType = "characters" then
    let dbRels := (db.characterRelationships.filterMap (fun r =>
      if r.characterId = entityId then
        (db.characters.find? (fun c => c.id = r.relatedCharacterId)).map (·.id)
      else none)).take 10
    if !dbRels.isEmpty then dbRels
    else getPredefinedRelationships db entityId relType
  else []

/-- `handle_relationship_query`: primary entity id and related ids, conf 0.8. -/
def handleRelationshipQueryCI (E : ExtLib) (db : DB) (cache : EntityCache) (q : Str) :
    Option (Str × List Str) :=
  match parseRelationshipQueryCI q with
  | none => none
  | some (entityName, relType) =>
      match findBestEntityMatch E cache entityName none 70 with
      | none => none
      | some m =>
          match getEntityById db m.entityId m.entityType with
          | none => none
          | some prim =>
              let related := findRelatedEntitiesCI db m.entityId m.entityType relType
              if related.isEmpty then none
              else some (prim.id, related)

/-! ### Multi-entity queries (`handle_multi_entity_query`) -/

def ciCharPatterns : List (List Tok) :=
  [ -- r'(?:all|every).*?(?:of\s+|for\s+)?(.+?)(?:\'s|s)\s+'
    -- (the optional `of\s+|for\s+` group is modelled with a single space)
    [Tok.alts ["all", "every"], Tok.anyL, Tok.alts ["of ", "for ", ""], Tok.grpL,
     Tok.alts ["\x27s", "s"], Tok.wsP]
  , -- r'(.+?)(?:\'s|s)\s+(?:all|every)'
    [Tok.grpL, Tok.alts ["\x27s", "s"], Tok.wsP, Tok.alts ["all", "every"]]
  , -- r'tell.*?about.*?(.+?)(?:\'s|s)\s+'
    [Tok.lit "tell", Tok.anyL, Tok.lit "about", Tok.anyL, Tok.grpL,
     Tok.alts ["\x27s", "s"], Tok.wsP] ]

def parseMultiEntityQuery (q : Str) : Option (String × String × Option Str) :=
  let ql := strLower q
  if [S "all", S "list", S "every", S "show"].any (fun w => hasSub w ql)
      || hasSub (S "vehicles does batman") ql || hasSub (S "batman vehicles") ql then
    let etype : Option String :=
      if [S "vehicle", S "car", S "plane", S "boat"].any (fun w => hasSub w ql)
          || hasSub (S "vehicles does batman") ql then some "vehicles"
      else if [S "location", S "place", S "building"].any (fun w => hasSub w ql) then
        some "locations"
      else if [S "character", S "people", S "person", S "family", S "members"].any
          (fun w => hasSub w ql) then some "characters"
      else if [S "organization", S "group", S "team"].any (fun w => hasSub w ql) then
        some "organizations"
      else none
    match etype with
    | none => none
    | some t =>
        match firstGroup ciCharPatterns ql with
        | some g => some ("character_related", t, some (strStrip g))
        | none => some ("list_all", t, none)
  else none

def getAllEntitiesOfType (db : DB) (t : String) : List Str :=
  ((db.byKind t).take 20).map (·.id)

def getCharacterRelatedEntities (db : DB) (characterId : Str) (t : String) :
    List Str :=
  if t = "vehicles" then
    db.vehicleUsers.filterMap (fun vu =>
      if vu.2 = characterId then (db.vehicles.find? (fun v => v.id = vu.1)).map (·.id)
      else none)
  else if t = "locations" then
    db.characterLocations.filterMap (fun cl =>
      if cl.characterId = characterId then
        (db.locations.find? (fun l => l.id = cl.locationId)).map (·.id)
      else none)
  else []

/-- `handle_multi_entity_query`: ids of the reported entities (`entities[:10]`). -/
def handleMultiEntityQuery (E : ExtLib) (db : DB) (cache : EntityCache) (q : Str) :
    Option (List Str) :=
  match parseMultiEntityQuery q with
  | none => none
  | some (qt, t, charOpt) =>
      if qt = "list_all" then
        let es := getAllEntitiesOfType db t
        if es.isEmpty then none else some (es.take 10)
      else
        match charOpt with
        | some cname =>
            match findBestEntityMatch E cache cname (some "characters") 70 with
            | some m =>
                let es := getCharacterRelatedEntities db m.entityId t
                if es.isEmpty then none else some (es.take 10)
            | none => none
        | none => none

/-! ## `BatmanChatbot` (`batman_chatbot.py`)

`BatmanResponse` carries the deterministic response surface; the `answer` text
is not modelled (see the header).  The chatbot is modelled with a live database
connection and instantiated processors, mirroring a successful `__init__`. -/

structure BatmanResponse where
  confidence : Int
  sourceEntities : List Str
  queryType : String
  suggestions : Option (List Str)
deriving DecidableEq, Repr

/-! ### `_check_batman_scope` -/

def nonBatmanHeroes : List Str :=
  [ S "superman", S "clark kent", S "kal-el"
  , S "wonder woman", S "diana prince"
  , S "green lantern", S "hal jordan", S "john stewart", S "kyle rayner"
  , S "flash", S "barry allen", S "wally west"
  , S "aquaman", S "arthur curry"
  , S "green arrow", S "oliver queen"
  , S "martian manhunter", S "j\x27onn j\x27onzz"
  , S "cyborg", S "victor stone"
  , S "shazam", S "billy batson"
  , S "hawkman", S "carter hall"
  , S "atom", S "ray palmer"
  , S "firestorm", S "ronnie raymond" ]

def nonBatmanEntities : List Str :=
  [ S "metropolis", S "smallville", S "daily planet"
  , S "lexcorp", S "lex corp", S "luthorcorp"
  , S "themyscira", S "paradise island"
  , S "coast city", S "central city", S "keystone city"
  , S "atlantis", S "star city"
  , S "mount justice", S "watchtower"
  , S "fortress of solitude"
  , S "hall of justice" ]

def batmanTerms : List Str :=
  [S "batman", S "bruce wayne", S "dark knight", S "gotham", S "bat-family"]

def scopeVehiclePatterns : List Str :=
  [S "what does", S "what vehicles", S "what cars", S "drives", S "rides"]

def scopeEquipmentPatterns : List Str :=
  [S "gadgets", S "weapons", S "equipment", S "gear", S "tools"]

/-- `true` ⟺ `is_batman_related`.  The source loops over the denylist and
returns "not related" at the first term present without a franchise anchor;
since the anchor test does not depend on the term, the loop is equivalent to
the conjunction below.  The second block fires on vehicle/equipment phrasings
naming a non-Batman hero. -/
def checkBatmanScope (q : Str) : Bool :=
  let ql := strLower q
  let hasBatman := batmanTerms.any (fun t => hasSub t ql)
  if (nonBatmanHeroes ++ nonBatmanEntities).any (fun t => hasSub t ql && !hasBatman) then
    false
  else if (scopeVehiclePatterns ++ scopeEquipmentPatterns).any (fun p => hasSub p ql)
      && nonBatmanHeroes.any (fun h => hasSub h ql) then
    false
  else true

/-! ### `_classify_query` -/

def vehicleKeywordsBC : List Str :=
  [S "batmobile", S "batwing", S "batboat", S "batcycle", S "vehicle", S "car",
   S "plane", S "boat", S "drive", S "drives"]

def locationKeywordsBC : List Str :=
  [S "gotham", S "arkham", S "wayne manor", S "batcave", S "where is",
   S "location", S "place"]

def relationshipKeywordsBC : List Str :=
  [S "relationship", S "ally", S "enemy", S "friend", S "vs", S "versus",
   S "against"]

def sidekickKeywordsBC : List Str :=
  [S "sidekick", S "partner", S "robin", S "assistant", S "helper"]

def characterKeywordsBC : List Str :=
  [S "who is", S "tell me about", S "what about", S "character", S "person"]

def classifyQuery (q : Str) : String :=
  let ql := strLower q
  if vehicleKeywordsBC.any (fun k => hasSub k ql) then "vehicle_lookup"
  else if locationKeywordsBC.any (fun k => hasSub k ql) then "location_lookup"
  else if relationshipKeywordsBC.any (fun k => hasSub k ql) then "relationship_query"
  else if sidekickKeywordsBC.any (fun k => hasSub k ql) then "sidekick_lookup"
  else if characterKeywordsBC.any (fun k => hasSub k ql) then "character_lookup"
  else "general_search"

/-! ### Handlers -/

def outOfScopeResponse : BatmanResponse := ⟨0, [], "out_of_scope", none⟩

def clarificationResponse : BatmanResponse := ⟨0, [], "clarification_needed", none⟩

def notFoundResponse (qt : String) : BatmanResponse := ⟨0, [], qt, none⟩

def suggestionsOf (ms : List EntityMatch) : List Str := (ms.take 5).map (·.name)

/-- Shared tail of `_handle_character_query`: best match, confidence gate 0.6,
then the ambiguous fallback (the `if char_matches:` branch) or not-found. -/
def characterAmbiguousFallback (E : ExtLib) (cache : EntityCache) (q : Str) :
    BatmanResponse :=
  match handleAmbiguousQuery E cache q with
  | .multipleMatches ms =>
      let charMatches := ms.filter (fun m => m.entityType = "characters")
      if !charMatches.isEmpty then
        ⟨500, [], "character_lookup", some (suggestionsOf charMatches)⟩
      else notFoundResponse "character_lookup"
  | _ => notFoundResponse "character_lookup"

def handleCharacterMain (E : ExtLib) (cache : EntityCache) (db : DB) (q : Str) :
    BatmanResponse :=
  match findBestEntityMatch E cache q (some "characters") 70 with
  | some m =>
      if m.confidence > 600 then
        match getEntityById db m.entityId "characters" with
        | some _ => ⟨m.confidence, [m.entityId], "character_lookup", none⟩
        | none => characterAmbiguousFallback E cache q
      else characterAmbiguousFallback E cache q
  | none => characterAmbiguousFallback E cache q

def ambiguousNamesBC : List Str :=
  [S "robin", S "batgirl", S "flash", S "green lantern", S "joker", S "batman"]

def pronounsBC : List Str :=
  [S "it", S "that", S "this", S "them", S "him", S "her"]

/-- The contextual-followup guard scans the last four history items (reversed)
for an assistant message mentioning weapons. -/
def historyHasWeaponsAssistant (histAfter : List (String × Str)) : Bool :=
  (histAfter.reverse.take 4).any (fun h =>
    h.1 = "assistant" && hasSub (S "weapons") (strLower h.2))

/-- `_handle_character_query`.  `recur` is `self.process_query` for the
contextual-followup branch. -/
def handleCharacterQuery (E : ExtLib) (cache : EntityCache) (db : DB)
    (recur : Str → Option BatmanResponse) (histAfter : List (String × Str))
    (q : Str) : Option BatmanResponse :=
  if !checkBatmanScope q then some outOfScopeResponse
  else
    let queryClean := strStrip (strLower q)
    if pronounsBC.any (fun p => hasSub p queryClean)
        && !histAfter.isEmpty && historyHasWeaponsAssistant histAfter then
      -- _handle_contextual_followup: the history regex scraping is the
      -- `followup` oracle; no resolution yields the clarification response
      match E.followup histAfter q with
      | some resolved => recur resolved
      | none => some clarificationResponse
    else if ambiguousNamesBC.any (fun n => hasSub n queryClean) then
      match handleAmbiguousQuery E cache q with
      | .multipleMatches ms =>
          let charMatches := ms.filter (fun m => m.entityType = "characters")
          if charMatches.length > 1 then
            some ⟨500, [], "character_lookup", some (suggestionsOf charMatches)⟩
          else some (handleCharacterMain E cache db q)
      | _ => some (handleCharacterMain E cache db q)
    else some (handleCharacterMain E cache db q)

/-- `_handle_sidekick_query`. -/
def handleSidekickQuery (E : ExtLib) (cache : EntityCache) (db : DB)
    (recur : Str → Option BatmanResponse) (histAfter : List (String × Str)) :
    Option BatmanResponse :=
  match handleAmbiguousQuery E cache (S "robin") with
  | .multipleMatches ms =>
      let charMatches := ms.filter (fun m =>
        m.entityType = "characters" && hasSub (S "robin") (strLower m.name))
      if charMatches.length > 1 then
        some ⟨500, [], "sidekick_lookup", some (suggestionsOf charMatches)⟩
      else handleCharacterQuery E cache db recur histAfter (S "robin")
  | _ => handleCharacterQuery E cache db recur histAfter (S "robin")

/-- The candidate selection of `_handle_vehicle_query`: the character-specific
resolver on "what does X drive" phrasings, the generic matcher otherwise. -/
def vehicleMatchOf (E : ExtLib) (cache : EntityCache) (q : Str) :
    Option EntityMatch :=
  if [S "what does", S "what do", S "drive", S "car"].any
      (fun p => hasSub p (strLower q)) then
    findBestVehicleMatch E cache q 70
  else
    findBestEntityMatch E cache q (some "vehicles") 70

/-- `_handle_vehicle_query` with its dual confidence gate: 0.4 for
`character_vehicle` matches, 0.6 otherwise. -/
def handleVehicleQuery (E : ExtLib) (cache : EntityCache) (db : DB) (q : Str) :
    BatmanResponse :=
  if !checkBatmanScope q then outOfScopeResponse
  else
    match vehicleMatchOf E cache q with
    | some mm =>
        if mm.confidence > (if mm.matchType = "character_vehicle" then 400 else 600) then
          match getEntityById db mm.entityId "vehicles" with
          | some _ => ⟨mm.confidence, [mm.entityId], "vehicle_lookup", none⟩
          | none => notFoundResponse "vehicle_lookup"
        else notFoundResponse "vehicle_lookup"
    | none => notFoundResponse "vehicle_lookup"

/-- `_handle_location_query` (no scope check in the source). -/
def handleLocationQuery (E : ExtLib) (cache : EntityCache) (db : DB) (q : Str) :
    BatmanResponse :=
  match findBestEntityMatch E cache q (some "locations") 70 with
  | some m =>
      if m.confidence > 600 then
        match getEntityById db m.entityId "locations" with
        | some _ => ⟨m.confidence, [m.entityId], "location_lookup", none⟩
        | none => notFoundResponse "location_lookup"
      else notFoundResponse "location_lookup"
  | none => notFoundResponse "location_lookup"

/-- `_handle_relationship_query` (re-runs the conversation-intelligence
relationship handler, then falls back). -/
def handleRelationshipQueryBC (E : ExtLib) (db : DB) (cache : EntityCache)
    (q : Str) : BatmanResponse :=
  match handleRelationshipQueryCI E db cache q with
  | some r => ⟨800, r.1 :: r.2.take 3, "relationship_query", none⟩
  | none => ⟨0, [], "relationship_query", none⟩

def generalAmbiguousFallback (E : ExtLib) (cache : EntityCache) (q : Str) :
    BatmanResponse :=
  match handleAmbiguousQuery E cache q with
  | .multipleMatches ms => ⟨500, [], "general_search", some (suggestionsOf ms)⟩
  | _ => ⟨0, [], "general_search", none⟩

/-- `_handle_general_search` (threshold 60 across all kinds). -/
def handleGeneralSearch (E : ExtLib) (cache : EntityCache) (db : DB) (q : Str) :
    BatmanResponse :=
  if !checkBatmanScope q then outOfScopeResponse
  else
    match findBestEntityMatch E cache q none 60 with
    | some m =>
        if m.confidence > 600 then
          match getEntityById db m.entityId m.entityType with
          | some _ => ⟨m.confidence, [m.entityId], "general_search", none⟩
          | none => generalAmbiguousFallback E cache q
        else generalAmbiguousFallback E cache q
    | none => generalAmbiguousFallback E cache q

/-! ### `process_query`

The stages run in source order: relationship processor, intelligent multi-entity
search, intelligent relationship search, conversation-intelligence comparative /
relationship / multi-entity handlers, then the keyword classifier dispatch.
`fuel` bounds the contextual-followup recursion; `hist` is the conversation
history before this call (the current user message is appended first, as in the
source). -/

/-- One `process_query` invocation; `recur` performs the recursive
`self.process_query(resolved_query)` of the contextual-followup branch. -/
def processQueryCore (E : ExtLib) (db : DB) (recur : Str → Option BatmanResponse)
    (hist : List (String × Str)) (userInput : Str) : Option BatmanResponse :=
  let cache := buildEntityCache db
  let q := strStrip userInput
  let histAfter := hist ++ [("user", q)]
  match processRelationshipQuery db q with
  | some r => some ⟨r.confidence, [r.primaryId], r.queryType, none⟩
  | none =>
  match searchMultiEntity E db q with
  | some p => some ⟨900, [p.1.entityId, p.2.entityId], "comparison", none⟩
  | none =>
  match searchByRelationship E db q with
  | some r => some ⟨r.confidence, [r.entityId], r.entityType, none⟩
  | none =>
  match handleComparativeQuery E db cache q with
  | .crashed => none
  | .ok r => some ⟨r.confidence, [r.entity1Id, r.entity2Id], "comparative_analysis", none⟩
  | .noMatch =>
  match handleRelationshipQueryCI E db cache q with
  | some r => some ⟨800, r.1 :: r.2.take 3, "relationship_query", none⟩
  | none =>
  match handleMultiEntityQuery E db cache q with
  | some ids => some ⟨800, ids.take 5, "multi_entity_query", none⟩
  | none =>
  match classifyQuery q with
  | "character_lookup" => handleCharacterQuery E cache db recur histAfter q
  | "sidekick_lookup" => handleSidekickQuery E cache db recur histAfter
  | "vehicle_lookup" => some (handleVehicleQuery E cache db q)
  | "location_lookup" => some (handleLocationQuery E cache db q)
  | "relationship_query" => some (handleRelationshipQueryBC E db cache q)
  | "general_search" => some (handleGeneralSearch E cache db q)
  | _ => some ⟨0, [], "unknown", none⟩

def processQueryAux (E : ExtLib) (db : DB) :
    Nat → List (String × Str) → Str → Option BatmanResponse
  | 0, hist, userInput =>
      -- exhausted recursion budget: the followup branch's own fallback
      processQueryCore E db (fun _ => some clarificationResponse) hist userInput
  | n + 1, hist, userInput =>
      processQueryCore E db
        (fun rq => processQueryAux E db n (hist ++ [("user", strStrip userInput)]) rq)
        hist userInput

/-- `process_query` on a chatbot with a live connection. -/
def processQuery (E : ExtLib) (db : DB) (fuel : Nat)
    (hist : List (String × Str)) (userInput : Str) : Option BatmanResponse :=
  processQueryAux E db fuel hist userInput

/-! ## Claim-statement predicates

The denylist/anchor conditions of the specification's scope-filter property,
phrased over the source's own term lists. -/

def containsDenylistedTerm (q : Str) : Bool :=
  (nonBatmanHeroes ++ nonBatmanEntities).any (fun t => hasSub t (strLower q))

def containsBatmanAnchor (q : Str) : Bool :=
  batmanTerms.any (fun t => hasSub t (strLower q))

/-- The claimed fixed `query_type` vocabulary (spec §6). -/
def claimedQueryTypes : List String :=
  ["character_lookup", "vehicle_lookup", "location_lookup", "relationship_query",
   "multi_entity_query", "comparative_analysis", "general_search", "out_of_scope",
   "not_found", "error", "clarification_needed", "weapons", "defenses",
   "features", "specifications", "character_locations"]

/-- The `query_type` values `process_query` can actually emit (with a live
database connection): the claimed vocabulary minus `not_found`/`error` (only
produced by `get_entity_info_direct` resp. on a dead connection) plus
`character_weapons`, `comparison`, `sidekick_lookup`, the entity-table tags
`locations`/`characters` of `_handle_relationship_result`, and the dead
`unknown` branch of `_handle_unknown_query`. -/
def observedQueryTypes : List String :=
  ["weapons", "character_weapons", "defenses", "features", "specifications",
   "character_locations", "comparison", "locations", "characters",
   "comparative_analysis", "relationship_query", "multi_entity_query",
   "out_of_scope", "clarification_needed", "character_lookup", "sidekick_lookup",
   "vehicle_lookup", "location_lookup", "general_search", "unknown"]

/-! ## Sample instances for witnesses and counterexamples -/

def sampleDB : DB :=
  { characters :=
      [ ⟨S "c_batman", S "Batman", S "The Dark Knight of Gotham"⟩
      , ⟨S "c_robin_dick", S "Robin_(Dick_Grayson)", S "The first Robin"⟩
      , ⟨S "c_robin_tim", S "Robin_(Tim_Drake)", S "The third Robin"⟩
      , ⟨S "c_joker", S "Joker", S "The Clown Prince of Crime"⟩ ]
    vehicles :=
      [ ⟨S "v_batmobile", S "Batmobile", S "Armored pursuit vehicle"⟩
      , ⟨S "v_phantom", S "Phantom", S "A mysterious prototype"⟩ ]
    locations := [ ⟨S "l_gotham", S "Gotham_City", S "Home of the Bat"⟩ ]
    storylines := []
    organizations := []
    characterAliases := [ ⟨S "c_batman", S "Bruce Wayne"⟩ ]
    vehicleWeapons := []
    vehicleDefensiveSystems := []
    vehicleSpecialFeatures := []
    vehicleSpecifications :=
      [ ⟨S "v_batmobile", S "200 mph", S "", []⟩
      , ⟨S "v_phantom", S "unknown velocity", S "", []⟩ ]
    characterLocations := []
    vehicleUsers := []
    characterRelationships := []
    characterPowers := [] }

def sampleCache : EntityCache := buildEntityCache sampleDB

/-- A small deterministic stand-in for `process.extract` used by witnesses. -/
def sampleScore (q n : Str) : Option Nat :=
  if q = S "robin" && n = S "Robin_(Dick_Grayson)" then some 95
  else if q = S "robin" && n = S "Robin_(Tim_Drake)" then some 90
  else if q = S "bruce wayne" && n = S "Bruce Wayne" then some 95
  else if q = S "batman" && n = S "Batman" then some 90
  else none

def sampleExtract (q : Str) (names : List Str) (_ : Nat) : List (Str × Nat) :=
  names.filterMap (fun n => (sampleScore q n).map (fun s => (n, s)))

def sampleExt : ExtLib :=
  { extract := sampleExtract
    simW := fun a b => if a = S "batman" && b = S "batmobile" then 53 else 0
    simPart := fun _ _ => 0
    simTok := fun _ _ => 0
    fts := fun _ => none
    followup := fun _ _ => none }

/-- Oracle for the disambiguation half of the threshold claim: two same-kind
candidates, similarity 55 and 52, only visible to the loose threshold pass. -/
def c3aExt : ExtLib :=
  { extract := fun _ names lim =>
      if lim = 8 then
        names.filterMap (fun n =>
          if n = S "Robin_(Dick_Grayson)" then some (n, 55)
          else if n = S "Robin_(Tim_Drake)" then some (n, 52)
          else none)
      else []
    simW := fun _ _ => 0
    simPart := fun _ _ => 0
    simTok := fun _ _ => 0
    fts := fun _ => none
    followup := fun _ _ => none }

/-- Oracle for the single-strong-match half: exactly one candidate at 85. -/
def c3bExt : ExtLib :=
  { extract := fun _ names _ =>
      names.filterMap (fun n => if n = S "Gotham_City" then some (n, 85) else none)
    simW := fun _ _ => 0
    simPart := fun _ _ => 0
    simTok := fun _ _ => 0
    fts := fun _ => none
    followup := fun _ _ => none }

/-! ## Library-contract predicates and the response invariant -/

/-- `fuzzywuzzy` contract: `process.extract` scores lie in `[0, 100]`. -/
def ExtractBounded (E : ExtLib) : Prop :=
  ∀ q ns k, ∀ p ∈ E.extract q ns k, p.2 ≤ 100

/-- `fuzzywuzzy` contract: `process.extract` returns candidates drawn from the
supplied choice list. -/
def ExtractFromList (E : ExtLib) : Prop :=
  ∀ q ns k, ∀ p ∈ E.extract q ns k, p.1 ∈ ns

/-- The deterministic response invariant: the emitted `query_type` tag, the
confidence bounds, and the disambiguation discipline (a response carrying
suggestions has confidence exactly 0.5 and commits to no entity). -/
def GoodResp (r : BatmanResponse) : Prop :=
  r.queryType ∈ observedQueryTypes ∧
  0 ≤ r.confidence ∧ r.confidence ≤ 1000 ∧
  (∀ l, r.suggestions = some l → r.confidence = 500 ∧ r.sourceEntities = [])

/-! # Theorems

List-level helpers first, then per-component lemmas, then the claim theorems. -/

theorem mem_insertByConfDesc {x m : EntityMatch} {l : List EntityMatch}
    (h : x ∈ insertByConfDesc m l) : x = m ∨ x ∈ l := by
  induction l with
  | nil => simpa [insertByConfDesc] using h
  | cons a tl ih =>
      unfold insertByConfDesc at h
      split at h
      · rcases List.mem_cons.mp h with h | h
        · exact Or.inr (List.mem_cons.mpr (Or.inl h))
        · rcases ih h with h | h
          · exact Or.inl h
          · exact Or.inr (List.mem_cons.mpr (Or.inr h))
      · rcases List.mem_cons.mp h with h | h
        · exact Or.inl h
        · exact Or.inr h

theorem mem_sortByConfDesc {x : EntityMatch} {l : List EntityMatch}
    (h : x ∈ sortByConfDesc l) : x ∈ l := by
  induction l with
  | nil => simp [sortByConfDesc] at h
  | cons a tl ih =>
      have h' : x ∈ insertByConfDesc a (sortByConfDesc tl) := by
        simpa [sortByConfDesc] using h
      rcases mem_insertByConfDesc h' with h2 | h2
      · exact h2 ▸ List.mem_cons_self _ _
      · exact List.mem_cons.mpr (Or.inr (ih h2))

theorem length_insertByConfDesc (m : EntityMatch) (l : List EntityMatch) :
    (insertByConfDesc m l).length = l.length + 1 := by
  induction l with
  | nil => simp [insertByConfDesc]
  | cons a tl ih =>
      unfold insertByConfDesc
      split <;> simp [ih]

theorem length_sortByConfDesc (l : List EntityMatch) :
    (sortByConfDesc l).length = l.length := by
  induction l with
  | nil => simp [sortByConfDesc]
  | cons a tl ih =>
      unfold sortByConfDesc at ih ⊢
      simp [length_insertByConfDesc, ih]

theorem pickBestGo_spec :
    ∀ (l : List Cand) (best : Option Cand) (c : Cand),
      pickBestGo best l = some c →
      (c ∈ l ∨ best = some c) ∧ (∀ d ∈ l, d.finalScore ≤ c.finalScore) ∧
      (∀ b, best = some b → b.finalScore ≤ c.finalScore) := by
  intro l
  induction l with
  | nil =>
      intro best c h
      simp only [pickBestGo] at h
      exact ⟨Or.inr h, by simp, fun b hb => by rw [hb] at h; cases h; exact le_refl _⟩
  | cons a tl ih =>
      intro best c h
      simp only [pickBestGo] at h
      by_cases hgt : a.finalScore > bestScoreOf best
      · rw [if_pos hgt] at h
        obtain ⟨hmem, hall, hbest⟩ := ih (some a) c h
        have ha : a.finalScore ≤ c.finalScore := hbest a rfl
        refine ⟨?_, ?_, ?_⟩
        · rcases hmem with hm | hm
          · exact Or.inl (List.mem_cons.mpr (Or.inr hm))
          · exact Or.inl (Option.some.inj hm ▸ List.mem_cons_self _ _)
        · intro d hd
          rcases List.mem_cons.mp hd with rfl | hd
          · exact ha
          · exact hall d hd
        · intro b hb
          have hb' : bestScoreOf best = b.finalScore := by simp [hb, bestScoreOf]
          omega
      · rw [if_neg hgt] at h
        obtain ⟨hmem, hall, hbest⟩ := ih best c h
        have hbs_le : bestScoreOf best ≤ c.finalScore := by
          cases hb : best with
          | none => simp [bestScoreOf]
          | some b => simpa [bestScoreOf] using hbest b hb
        refine ⟨?_, ?_, hbest⟩
        · rcases hmem with hm | hm
          · exact Or.inl (List.mem_cons.mpr (Or.inr hm))
          · exact Or.inr hm
        · intro d hd
          rcases List.mem_cons.mp hd with rfl | hd
          · omega
          · exact hall d hd

theorem maxBySnd_mem {α : Type} :
    ∀ (l : List (α × Int)) (first : α × Int),
      maxBySnd first l = first ∨ maxBySnd first l ∈ l := by
  intro l
  induction l with
  | nil => intro first; simp [maxBySnd]
  | cons a tl ih =>
      intro first
      simp only [maxBySnd]
      split
      · rcases ih a with h | h
        · refine Or.inr ?_
          rw [h]
          exact List.mem_cons_self _ _
        · exact Or.inr (List.mem_cons.mpr (Or.inr h))
      · rcases ih first with h | h
        · exact Or.inl h
        · exact Or.inr (List.mem_cons.mpr (Or.inr h))

theorem findBestCandidates_mem {E : ExtLib} {cache : EntityCache} {clean : Str}
    {ts : List String} {th : Nat} {c : Cand}
    (h : c ∈ findBestCandidates E cache clean ts th) :
    ∃ t ∈ ts, ∃ p ∈ E.extract clean ((cache.byKind t).map (·.name)) 5, ∃ e,
      (cache.byKind t).find? (fun x => x.name = p.1) = some e ∧
      max th 50 ≤ p.2 ∧
      c = { finalScore := p.2 + importanceBonusPct e.name t
            originalScore := p.2
            em := { entityId := e.id, entityType := t,
                    name := e.realName.getD e.name,
                    confidence := 10 * (p.2 : Int),
                    matchType := if e.isAlias then "alias" else "fuzzy" } } := by
  unfold findBestCandidates at h
  rw [List.mem_flatMap] at h
  obtain ⟨t, ht, hc⟩ := h
  refine ⟨t, ht, ?_⟩
  simp only [] at hc
  split at hc
  · simp at hc
  · rw [List.mem_filterMap] at hc
    obtain ⟨p, hp, hfp⟩ := hc
    refine ⟨p, hp, ?_⟩
    split at hfp
    · rw [Option.map_eq_some'] at hfp
      obtain ⟨e, hfind, heq⟩ := hfp
      exact ⟨e, hfind, by omega, heq.symm⟩
    · cases hfp

theorem findBestEntityMatch_spec {E : ExtLib} {cache : EntityCache} {q : Str}
    {et : Option String} {th : Nat} {m : EntityMatch}
    (h : findBestEntityMatch E cache q et th = some m) :
    ∃ c ∈ findBestCandidates E cache (cleanQueryForMatching q)
        (match et with | some t => [t] | none => allKinds) th,
      m = c.em ∧
      ∀ d ∈ findBestCandidates E cache (cleanQueryForMatching q)
          (match et with | some t => [t] | none => allKinds) th,
        d.finalScore ≤ c.finalScore := by
  unfold findBestEntityMatch at h
  rw [Option.map_eq_some'] at h
  obtain ⟨c, hpick, hm⟩ := h
  obtain ⟨hmem, hall, -⟩ := pickBestGo_spec _ none c hpick
  rcases hmem with hm2 | hm2
  · exact ⟨c, hm2, hm.symm, hall⟩
  · cases hm2

theorem findBestEntityMatch_conf_bounds {E : ExtLib} {cache : EntityCache} {q : Str}
    {et : Option String} {th : Nat} {m : EntityMatch} (hB : ExtractBounded E)
    (h : findBestEntityMatch E cache q et th = some m) :
    0 ≤ m.confidence ∧ m.confidence ≤ 1000 := by
  obtain ⟨c, hc, hm, -⟩ := findBestEntityMatch_spec h
  obtain ⟨t, ht, p, hp, e, hfind, hth, hceq⟩ := findBestCandidates_mem hc
  have hb : (p.2 : Int) ≤ 100 := by exact_mod_cast hB _ _ _ p hp
  have hnn : (0 : Int) ≤ (p.2 : Int) := Int.natCast_nonneg _
  rw [hm, hceq]
  simp only []
  omega

theorem cache_characters_mem {db : DB} {e : CacheEntry}
    (h : e ∈ (buildEntityCache db).characters) :
    ∃ c ∈ db.characters, e.id = c.id ∧ e.realName.getD e.name = c.name := by
  simp only [buildEntityCache] at h
  rw [List.mem_append] at h
  rcases h with h | h
  · rw [List.mem_map] at h
    obtain ⟨c, hc, rfl⟩ := h
    exact ⟨c, hc, rfl, by simp [plainEntry]⟩
  · rw [List.mem_filterMap] at h
    obtain ⟨ar, har, hfm⟩ := h
    rw [Option.map_eq_some'] at hfm
    obtain ⟨c, hfind, heq⟩ := hfm
    refine ⟨c, List.mem_of_find?_eq_some hfind, ?_, ?_⟩
    · rw [← heq]
    · rw [← heq]; simp

theorem cache_byKind_id {db : DB} {t : String} {e : CacheEntry}
    (h : e ∈ (buildEntityCache db).byKind t) :
    ∃ row ∈ db.byKind t, e.id = row.id := by
  unfold EntityCache.byKind at h
  split at h
  · obtain ⟨c, hc, hid, -⟩ := cache_characters_mem h
    exact ⟨c, by simpa [DB.byKind] using hc, hid⟩
  · simp only [buildEntityCache] at h
    rw [List.mem_map] at h
    obtain ⟨row, hrow, rfl⟩ := h
    exact ⟨row, by simpa [DB.byKind] using hrow, rfl⟩
  · simp only [buildEntityCache] at h
    rw [List.mem_map] at h
    obtain ⟨row, hrow, rfl⟩ := h
    exact ⟨row, by simpa [DB.byKind] using hrow, rfl⟩
  · simp only [buildEntityCache] at h
    rw [List.mem_map] at h
    obtain ⟨row, hrow, rfl⟩ := h
    exact ⟨row, by simpa [DB.byKind] using hrow, rfl⟩
  · simp only [buildEntityCache] at h
    rw [List.mem_map] at h
    obtain ⟨row, hrow, rfl⟩ := h
    exact ⟨row, by simpa [DB.byKind] using hrow, rfl⟩
  · simp at h

theorem getEntityById_exists_of_mem {db : DB} {t : String} {row : EntityRow}
    (hrow : row ∈ db.byKind t) {eid : Str} (heq : eid = row.id) :
    ∃ r, getEntityById db eid t = some r := by
  unfold getEntityById
  have hs : ((db.byKind t).find? (fun e => e.id = eid)).isSome := by
    rw [List.find?_isSome]
    exact ⟨row, hrow, by simp [heq]⟩
  exact Option.isSome_iff_exists.mp hs

theorem findMultipleEntities_mem {E : ExtLib} {cache : EntityCache} {q : Str}
    {k th : Nat} {m : EntityMatch}
    (h : m ∈ findMultipleEntities E cache q k th) :
    ∃ t ∈ allKinds, ∃ p ∈ E.extract (cleanQueryForMatching q)
        ((cache.byKind t).map (·.name)) 8, ∃ e,
      (cache.byKind t).find? (fun x => x.name = p.1) = some e ∧ th ≤ p.2 ∧
      m = { entityId := e.id, entityType := t, name := e.realName.getD e.name,
            confidence := min (10 * (p.2 : Int) + (importanceValue e.name : Int)) 1000,
            matchType := if e.isAlias then "alias" else "fuzzy" } := by
  unfold findMultipleEntities at h
  have h1 := mem_sortByConfDesc (List.mem_of_mem_take h)
  rw [List.mem_flatMap] at h1
  obtain ⟨t, ht, hm⟩ := h1
  refine ⟨t, ht, ?_⟩
  simp only [] at hm
  split at hm
  · simp at hm
  · rw [List.mem_filterMap] at hm
    obtain ⟨p, hp, hfp⟩ := hm
    refine ⟨p, hp, ?_⟩
    split at hfp
    · rw [Option.map_eq_some'] at hfp
      obtain ⟨e, hfind, heq⟩ := hfp
      exact ⟨e, hfind, by omega, heq.symm⟩
    · cases hfp

theorem findMultipleEntities_conf_bounds {E : ExtLib} {cache : EntityCache}
    {q : Str} {k th : Nat} {m : EntityMatch}
    (h : m ∈ findMultipleEntities E cache q k th) :
    0 ≤ m.confidence ∧ m.confidence ≤ 1000 := by
  obtain ⟨t, -, p, -, e, -, -, hm⟩ := findMultipleEntities_mem h
  rw [hm]
  simp only []
  have h1 : (0 : Int) ≤ (p.2 : Int) := Int.natCast_nonneg _
  have h2 : (0 : Int) ≤ (importanceValue e.name : Int) := Int.natCast_nonneg _
  omega

theorem semanticSearch_conf_bounds {cache : EntityCache} {q : Str}
    {et : Option String} {k : Nat} {m : EntityMatch}
    (h : m ∈ semanticSearch cache q et k) :
    0 ≤ m.confidence ∧ m.confidence ≤ 1000 := by
  unfold semanticSearch at h
  have h1 := mem_sortByConfDesc (List.mem_of_mem_take h)
  rw [List.mem_flatMap] at h1
  obtain ⟨t, -, hm⟩ := h1
  rw [List.mem_filterMap] at hm
  obtain ⟨e, -, hfe⟩ := hm
  split at hfe
  · rw [Option.some.injEq] at hfe
    rw [← hfe]
    simp only []
    constructor
    · exact le_min (by positivity) (by norm_num)
    · exact min_le_right _ _
  · cases hfe

theorem findCharacterVehicle_spec {E : ExtLib} {cache : EntityCache}
    {cn oq : Str} {th : Nat} {m : EntityMatch}
    (h : findCharacterVehicle E cache cn oq th = some m) :
    ∃ v ∈ cache.vehicles, ∃ sc : Int, (th : Int) ≤ sc ∧
      m = ⟨v.id, "vehicles", v.name, min (10 * sc) 1000, "character_vehicle"⟩ := by
  unfold findCharacterVehicle at h
  split at h
  · cases h
  · split at h
    · cases h
    · rename_i c rest hscored
      rw [Option.some.injEq] at h
      have hbest : maxBySnd c rest ∈ c :: rest := by
        rcases maxBySnd_mem rest c with hb | hb
        · rw [hb]; exact List.mem_cons_self _ _
        · exact List.mem_cons.mpr (Or.inr hb)
      rw [← hscored] at hbest
      unfold scoredVehicles at hbest
      rw [List.mem_filterMap] at hbest
      obtain ⟨v, hv, hfv⟩ := hbest
      split at hfv
      · rw [Option.some.injEq] at hfv
        refine ⟨v, List.mem_of_mem_filter hv, (maxBySnd c rest).2, ?_, ?_⟩
        · rename_i hge
          rw [← hfv]
          exact hge
        · rw [← h, ← hfv]
      · cases hfv

theorem findBestVehicleMatch_conf_bounds {E : ExtLib} {cache : EntityCache}
    {q : Str} {m : EntityMatch} (hB : ExtractBounded E)
    (h : findBestVehicleMatch E cache q 70 = some m) :
    0 ≤ m.confidence ∧ m.confidence ≤ 1000 := by
  unfold findBestVehicleMatch at h
  split at h
  · obtain ⟨v, hv, sc, hsc, hm⟩ := findCharacterVehicle_spec h
    have h40 : ((min 70 40 : Nat) : Int) = 40 := by norm_num
    rw [h40] at hsc
    rw [hm]
    simp only []
    omega
  · exact findBestEntityMatch_conf_bounds hB h

/-! ### Relationship-processor stage -/

theorem processWeaponsQuery_spec {db : DB} {n : Str} {r : RelationshipResult}
    (h : processWeaponsQuery db n = some r) :
    r.queryType ∈ observedQueryTypes ∧ 0 ≤ r.confidence ∧ r.confidence ≤ 1000 := by
  simp only [processWeaponsQuery] at h
  split at h
  · cases h
  · split at h
    · split at h <;>
        (rw [Option.some.injEq] at h; subst h; exact ⟨by simp [observedQueryTypes], by norm_num, by norm_num⟩)
    · split at h
      · split at h
        · rw [Option.some.injEq] at h; subst h; exact ⟨by simp [observedQueryTypes], by norm_num, by norm_num⟩
        · cases h
      · cases h

theorem processDefenseQuery_spec {db : DB} {n : Str} {r : RelationshipResult}
    (h : processDefenseQuery db n = some r) :
    r.queryType ∈ observedQueryTypes ∧ 0 ≤ r.confidence ∧ r.confidence ≤ 1000 := by
  simp only [processDefenseQuery] at h
  split at h
  · cases h
  · split at h
    · split at h <;>
        (rw [Option.some.injEq] at h; subst h; exact ⟨by simp [observedQueryTypes], by norm_num, by norm_num⟩)
    · split at h
      · rw [Option.some.injEq] at h; subst h; exact ⟨by simp [observedQueryTypes], by norm_num, by norm_num⟩
      · cases h

theorem processFeaturesQuery_spec {db : DB} {n : Str} {r : RelationshipResult}
    (h : processFeaturesQuery db n = some r) :
    r.queryType ∈ observedQueryTypes ∧ 0 ≤ r.confidence ∧ r.confidence ≤ 1000 := by
  simp only [processFeaturesQuery] at h
  split at h
  · cases h
  · split at h
    · split at h <;>
        (rw [Option.some.injEq] at h; subst h; exact ⟨by simp [observedQueryTypes], by norm_num, by norm_num⟩)
    · split at h
      · rw [Option.some.injEq] at h; subst h; exact ⟨by simp [observedQueryTypes], by norm_num, by norm_num⟩
      · cases h

theorem processSpecificationsQuery_spec {db : DB} {n : Str} {r : RelationshipResult}
    (h : processSpecificationsQuery db n = some r) :
    r.queryType ∈ observedQueryTypes ∧ 0 ≤ r.confidence ∧ r.confidence ≤ 1000 := by
  simp only [processSpecificationsQuery] at h
  split at h
  · cases h
  · split at h
    · cases h
    · split at h
      · split at h
        · rw [Option.some.injEq] at h; subst h; exact ⟨by simp [observedQueryTypes], by norm_num, by norm_num⟩
        · cases h
      · cases h

theorem processLocationQueryRP_spec {db : DB} {n : Str} {r : RelationshipResult}
    (h : processLocationQueryRP db n = some r) :
    r.queryType ∈ observedQueryTypes ∧ 0 ≤ r.confidence ∧ r.confidence ≤ 1000 := by
  simp only [processLocationQueryRP] at h
  split at h
  · cases h
  · split at h
    · split at h
      · rw [Option.some.injEq] at h; subst h; exact ⟨by simp [observedQueryTypes], by norm_num, by norm_num⟩
      · cases h
    · cases h

theorem processRelationshipQuery_spec {db : DB} {q : Str} {r : RelationshipResult}
    (h : processRelationshipQuery db q = some r) :
    r.queryType ∈ observedQueryTypes ∧ 0 ≤ r.confidence ∧ r.confidence ≤ 1000 := by
  simp only [processRelationshipQuery] at h
  split at h
  · exact processWeaponsQuery_spec h
  · split at h
    · exact processDefenseQuery_spec h
    · split at h
      · exact processFeaturesQuery_spec h
      · split at h
        · exact processSpecificationsQuery_spec h
        · split at h
          · exact processLocationQueryRP_spec h
          · cases h

/-! ### Relationship-based intelligent search stage -/

theorem findEntityLocation_spec {E : ExtLib} {db : DB} {n : Str} {r : SearchResult}
    (h : findEntityLocation E db n = some r) :
    r.entityType = "locations" ∧ (r.confidence = 900 ∨ r.confidence = 800) := by
  simp only [findEntityLocation] at h
  split at h
  · cases h
  · split at h
    · rw [Option.some.injEq] at h; subst h; exact ⟨rfl, Or.inl rfl⟩
    · split at h
      · rw [Option.some.injEq] at h; subst h; exact ⟨rfl, Or.inr rfl⟩
      · split at h
        · obtain ⟨p, hp, hf⟩ := List.exists_of_findSome?_eq_some h
          split at hf
          · obtain ⟨ln, hln, hg⟩ := List.exists_of_findSome?_eq_some hf
            rw [Option.map_eq_some'] at hg
            obtain ⟨l, -, heq⟩ := hg
            subst heq; exact ⟨rfl, Or.inr rfl⟩
          · cases hf
        · cases h

theorem findEntityUsers_spec {E : ExtLib} {db : DB} {n : Str} {r : SearchResult}
    (h : findEntityUsers E db n = some r) :
    r.entityType = "characters" ∧ (r.confidence = 900 ∨ r.confidence = 800) := by
  simp only [findEntityUsers] at h
  split at h
  · cases h
  · split at h
    · split at h
      · rw [Option.some.injEq] at h; subst h; exact ⟨rfl, Or.inl rfl⟩
      · split at h
        · rw [Option.map_eq_some'] at h
          obtain ⟨c, -, heq⟩ := h
          subst heq; exact ⟨rfl, Or.inr rfl⟩
        · cases h
    · cases h

theorem searchByRelationship_spec {E : ExtLib} {db : DB} {q : Str} {r : SearchResult}
    (h : searchByRelationship E db q = some r) :
    (r.entityType = "locations" ∨ r.entityType = "characters") ∧
      (r.confidence = 900 ∨ r.confidence = 800) := by
  simp only [searchByRelationship] at h
  split at h
  · obtain ⟨h1, h2⟩ := findEntityLocation_spec h
    exact ⟨Or.inl h1, h2⟩
  · split at h
    · obtain ⟨h1, h2⟩ := findEntityUsers_spec h
      exact ⟨Or.inr h1, h2⟩
    · cases h

/-! ### Comparison-engine confidences -/

theorem compareVehicleSpeed_conf (n1 n2 : Str) (s1 s2 : VehSpecs) :
    500 ≤ (compareVehicleSpeed n1 n2 s1 s2).2 ∧
      (compareVehicleSpeed n1 n2 s1 s2).2 ≤ 800 := by
  simp only [compareVehicleSpeed]
  split
  · exact ⟨by norm_num, by norm_num⟩
  · split
    · exact ⟨by norm_num, by norm_num⟩
    · exact ⟨by norm_num, by norm_num⟩

theorem compareVehicleArmor_conf (n1 n2 : Str) (s1 s2 : VehSpecs) :
    500 ≤ (compareVehicleArmor n1 n2 s1 s2).2 ∧
      (compareVehicleArmor n1 n2 s1 s2).2 ≤ 800 := by
  simp only [compareVehicleArmor]
  split
  · exact ⟨by norm_num, by norm_num⟩
  · split
    · exact ⟨by norm_num, by norm_num⟩
    · exact ⟨by norm_num, by norm_num⟩

theorem compareVehicleWeapons_conf (n1 n2 : Str) (s1 s2 : VehSpecs) :
    500 ≤ (compareVehicleWeapons n1 n2 s1 s2).2 ∧
      (compareVehicleWeapons n1 n2 s1 s2).2 ≤ 800 := by
  simp only [compareVehicleWeapons]
  split
  · exact ⟨by norm_num, by norm_num⟩
  · split
    · exact ⟨by norm_num, by norm_num⟩
    · exact ⟨by norm_num, by norm_num⟩

theorem compareVehicleOverall_conf (n1 n2 : Str) (s1 s2 : VehSpecs) :
    500 ≤ (compareVehicleOverall n1 n2 s1 s2).2 ∧
      (compareVehicleOverall n1 n2 s1 s2).2 ≤ 800 := by
  simp only [compareVehicleOverall]
  split
  · exact ⟨by norm_num, by norm_num⟩
  · split
    · exact ⟨by norm_num, by norm_num⟩
    · exact ⟨by norm_num, by norm_num⟩

theorem enhancedVehicleComparison_conf (db : DB) (n1 n2 : Str) (ct : String) :
    500 ≤ (enhancedVehicleComparison db n1 n2 ct).2 ∧
      (enhancedVehicleComparison db n1 n2 ct).2 ≤ 800 := by
  simp only [enhancedVehicleComparison]
  split
  · exact compareVehicleSpeed_conf _ _ _ _
  · split
    · exact compareVehicleArmor_conf _ _ _ _
    · split
      · exact compareVehicleWeapons_conf _ _ _ _
      · exact compareVehicleOverall_conf _ _ _ _

theorem enhancedCharacterComparison_conf {n1 n2 : Str} {ct : String}
    {p : Option Str × Int} (h : enhancedCharacterComparison n1 n2 ct = some p) :
    p.2 = 800 ∨ p.2 = 600 := by
  simp only [enhancedCharacterComparison] at h
  split at h
  · cases h
  · split at h
    · rw [Option.some.injEq] at h; subst h; exact Or.inl rfl
    · split at h
      · rw [Option.some.injEq] at h; subst h; exact Or.inl rfl
      · rw [Option.some.injEq] at h; subst h; exact Or.inr rfl

theorem fallbackCompare_conf (db : DB) (e1 e2 : EntityRow) (t1 t2 ct : String) :
    (fallbackCompare db e1 e2 t1 t2 ct).2 = 700 ∨
      (fallbackCompare db e1 e2 t1 t2 ct).2 = 500 := by
  have hgen : ∀ (w : Option Str),
      (if w.isSome then (700 : Int) else 500) = 700 ∨
        (if w.isSome then (700 : Int) else 500) = 500 := by
    intro w; cases w <;> simp
  simp only [fallbackCompare]
  exact hgen _

theorem enhancedCompareEntities_conf {db : DB} {e1 e2 : EntityRow}
    {t1 t2 ct : String} {p : Option Str × Int}
    (h : enhancedCompareEntities db e1 e2 t1 t2 ct = some p) :
    500 ≤ p.2 ∧ p.2 ≤ 800 := by
  simp only [enhancedCompareEntities] at h
  split at h
  · rcases enhancedCharacterComparison_conf h with h2 | h2 <;> omega
  · split at h
    · rw [Option.some.injEq] at h; subst h
      exact enhancedVehicleComparison_conf _ _ _ _
    · rw [Option.some.injEq] at h; subst h
      rcases fallbackCompare_conf db e1 e2 t1 t2 ct with h2 | h2 <;> omega

theorem handleComparativeQuery_conf {E : ExtLib} {db : DB} {cache : EntityCache}
    {q : Str} {r : ConvCompResult}
    (h : handleComparativeQuery E db cache q = .ok r) :
    500 ≤ r.confidence ∧ r.confidence ≤ 800 := by
  simp only [handleComparativeQuery] at h
  split at h
  · cases h
  · split at h
    · split at h
      · split at h
        · cases h
        · rename_i hcmp
          rw [CICompOutcome.ok.injEq] at h
          subst h
          exact enhancedCompareEntities_conf hcmp
      · cases h
    · cases h

/-! ### Response-invariant helpers -/

theorem goodResp_simple {qt : String} {c : Int} (hqt : qt ∈ observedQueryTypes)
    (h0 : 0 ≤ c) (h1 : c ≤ 1000) (ids : List Str) :
    GoodResp ⟨c, ids, qt, none⟩ := by
  refine ⟨hqt, h0, h1, ?_⟩
  intro l hl
  cases hl

theorem goodResp_suggest {qt : String} (hqt : qt ∈ observedQueryTypes)
    (l : List Str) : GoodResp ⟨500, [], qt, some l⟩ := by
  refine ⟨hqt, by norm_num, by norm_num, ?_⟩
  intro l' hl'
  exact ⟨rfl, rfl⟩

theorem outOfScopeResponse_good : GoodResp outOfScopeResponse :=
  goodResp_simple (by decide) (by norm_num) (by norm_num) []

theorem clarificationResponse_good : GoodResp clarificationResponse :=
  goodResp_simple (by decide) (by norm_num) (by norm_num) []

theorem notFoundResponse_good (qt : String) (hqt : qt ∈ observedQueryTypes) :
    GoodResp (notFoundResponse qt) :=
  goodResp_simple hqt (by norm_num) (by norm_num) []

/-! ### Per-handler invariants -/

theorem characterAmbiguousFallback_good (E : ExtLib) (cache : EntityCache)
    (q : Str) : GoodResp (characterAmbiguousFallback E cache q) := by
  simp only [characterAmbiguousFallback]
  split
  · split
    · exact goodResp_suggest (by decide) _
    · exact notFoundResponse_good "character_lookup" (by decide)
  · exact notFoundResponse_good "character_lookup" (by decide)

theorem handleCharacterMain_good {E : ExtLib} {cache : EntityCache} {db : DB}
    {q : Str} (hB : ExtractBounded E) :
    GoodResp (handleCharacterMain E cache db q) := by
  simp only [handleCharacterMain]
  split
  · rename_i m hm
    split
    · split
      · obtain ⟨h0, h1⟩ := findBestEntityMatch_conf_bounds hB hm
        exact goodResp_simple (by decide) h0 h1 _
      · exact characterAmbiguousFallback_good E cache q
    · exact characterAmbiguousFallback_good E cache q
  · exact characterAmbiguousFallback_good E cache q

theorem vehicleMatchOf_conf_bounds {E : ExtLib} {cache : EntityCache} {q : Str}
    {m : EntityMatch} (hB : ExtractBounded E)
    (h : vehicleMatchOf E cache q = some m) :
    0 ≤ m.confidence ∧ m.confidence ≤ 1000 := by
  simp only [vehicleMatchOf] at h
  split at h
  · exact findBestVehicleMatch_conf_bounds hB h
  · exact findBestEntityMatch_conf_bounds hB h

theorem handleVehicleQuery_good {E : ExtLib} {cache : EntityCache} {db : DB}
    {q : Str} (hB : ExtractBounded E) :
    GoodResp (handleVehicleQuery E cache db q) := by
  simp only [handleVehicleQuery]
  split
  · exact outOfScopeResponse_good
  · split
    · rename_i mm hmm
      obtain ⟨h0, h1⟩ := vehicleMatchOf_conf_bounds hB hmm
      split
      · split
        · split
          · exact goodResp_simple (by decide) h0 h1 _
          · exact notFoundResponse_good "vehicle_lookup" (by decide)
        · exact notFoundResponse_good "vehicle_lookup" (by decide)
      · split
        · split
          · exact goodResp_simple (by decide) h0 h1 _
          · exact notFoundResponse_good "vehicle_lookup" (by decide)
        · exact notFoundResponse_good "vehicle_lookup" (by decide)
    · exact notFoundResponse_good "vehicle_lookup" (by decide)

theorem handleLocationQuery_good {E : ExtLib} {cache : EntityCache} {db : DB}
    {q : Str} (hB : ExtractBounded E) :
    GoodResp (handleLocationQuery E cache db q) := by
  simp only [handleLocationQuery]
  split
  · rename_i m hm
    split
    · split
      · obtain ⟨h0, h1⟩ := findBestEntityMatch_conf_bounds hB hm
        exact goodResp_simple (by decide) h0 h1 _
      · exact notFoundResponse_good "location_lookup" (by decide)
    · exact notFoundResponse_good "location_lookup" (by decide)
  · exact notFoundResponse_good "location_lookup" (by decide)

theorem handleRelationshipQueryBC_good (E : ExtLib) (db : DB)
    (cache : EntityCache) (q : Str) :
    GoodResp (handleRelationshipQueryBC E db cache q) := by
  simp only [handleRelationshipQueryBC]
  split
  · exact goodResp_simple (by decide) (by norm_num) (by norm_num) _
  · exact goodResp_simple (by decide) (by norm_num) (by norm_num) _

theorem generalAmbiguousFallback_good (E : ExtLib) (cache : EntityCache)
    (q : Str) : GoodResp (generalAmbiguousFallback E cache q) := by
  simp only [generalAmbiguousFallback]
  split
  · exact goodResp_suggest (by decide) _
  · exact goodResp_simple (by decide) (by norm_num) (by norm_num) _

theorem handleGeneralSearch_good {E : ExtLib} {cache : EntityCache} {db : DB}
    {q : Str} (hB : ExtractBounded E) :
    GoodResp (handleGeneralSearch E cache db q) := by
  simp only [handleGeneralSearch]
  split
  · exact outOfScopeResponse_good
  · split
    · rename_i m hm
      split
      · split
        · obtain ⟨h0, h1⟩ := findBestEntityMatch_conf_bounds hB hm
          exact goodResp_simple (by decide) h0 h1 _
        · exact generalAmbiguousFallback_good E cache q
      · exact generalAmbiguousFallback_good E cache q
    · exact generalAmbiguousFallback_good E cache q

theorem handleCharacterQuery_good {E : ExtLib} {cache : EntityCache} {db : DB}
    {recur : Str → Option BatmanResponse} {histAfter : List (String × Str)}
    {q : Str} (hB : ExtractBounded E)
    (hrec : ∀ rq r, recur rq = some r → GoodResp r) :
    ∀ r, handleCharacterQuery E cache db recur histAfter q = some r →
      GoodResp r := by
  intro r h
  simp only [handleCharacterQuery] at h
  split at h
  · rw [Option.some.injEq] at h; subst h
    exact outOfScopeResponse_good
  · split at h
    · split at h
      · exact hrec _ _ h
      · rw [Option.some.injEq] at h; subst h
        exact clarificationResponse_good
    · split at h
      · split at h
        · split at h
          · rw [Option.some.injEq] at h; subst h
            exact goodResp_suggest (by decide) _
          · rw [Option.some.injEq] at h; subst h
            exact handleCharacterMain_good hB
        · rw [Option.some.injEq] at h; subst h
          exact handleCharacterMain_good hB
      · rw [Option.some.injEq] at h; subst h
        exact handleCharacterMain_good hB

theorem handleSidekickQuery_good {E : ExtLib} {cache : EntityCache} {db : DB}
    {recur : Str → Option BatmanResponse} {histAfter : List (String × Str)}
    (hB : ExtractBounded E)
    (hrec : ∀ rq r, recur rq = some r → GoodResp r) :
    ∀ r, handleSidekickQuery E cache db recur histAfter = some r →
      GoodResp r := by
  intro r h
  simp only [handleSidekickQuery] at h
  split at h
  · split at h
    · rw [Option.some.injEq] at h; subst h
      exact goodResp_suggest (by decide) _
    · exact handleCharacterQuery_good hB hrec r h
  · exact handleCharacterQuery_good hB hrec r h

/-! ### The master invariant over `process_query` -/

theorem processQueryCore_good {E : ExtLib} {db : DB}
    {recur : Str → Option BatmanResponse} {hist : List (String × Str)} {q : Str}
    (hB : ExtractBounded E)
    (hrec : ∀ rq r, recur rq = some r → GoodResp r) :
    ∀ r, processQueryCore E db recur hist q = some r → GoodResp r := by
  intro r h
  simp only [processQueryCore] at h
  split at h
  · rename_i rr hrr
    rw [Option.some.injEq] at h; subst h
    obtain ⟨hq, h0, h1⟩ := processRelationshipQuery_spec hrr
    exact goodResp_simple hq h0 h1 _
  · split at h
    · rw [Option.some.injEq] at h; subst h
      exact goodResp_simple (by decide) (by norm_num) (by norm_num) _
    · split at h
      · rename_i rr hrr
        rw [Option.some.injEq] at h; subst h
        obtain ⟨hq, hc⟩ := searchByRelationship_spec hrr
        refine goodResp_simple ?_ ?_ ?_ _
        · rcases hq with h' | h' <;> rw [h'] <;> decide
        · rcases hc with h' | h' <;> rw [h'] <;> norm_num
        · rcases hc with h' | h' <;> rw [h'] <;> norm_num
      · split at h
        · cases h
        · rename_i rr hrr
          rw [Option.some.injEq] at h; subst h
          obtain ⟨h0, h1⟩ := handleComparativeQuery_conf hrr
          exact goodResp_simple (by decide) (by omega) (by omega) _
        · split at h
          · rw [Option.some.injEq] at h; subst h
            exact goodResp_simple (by decide) (by norm_num) (by norm_num) _
          · split at h
            · rw [Option.some.injEq] at h; subst h
              exact goodResp_simple (by decide) (by norm_num) (by norm_num) _
            · split at h
              · exact handleCharacterQuery_good hB hrec r h
              · exact handleSidekickQuery_good hB hrec r h
              · rw [Option.some.injEq] at h; subst h
                exact handleVehicleQuery_good hB
              · rw [Option.some.injEq] at h; subst h
                exact handleLocationQuery_good hB
              · rw [Option.some.injEq] at h; subst h
                exact handleRelationshipQueryBC_good E db _ _
              · rw [Option.some.injEq] at h; subst h
                exact handleGeneralSearch_good hB
              · rw [Option.some.injEq] at h; subst h
                exact goodResp_simple (by decide) (by norm_num) (by norm_num) _

theorem processQueryAux_good {E : ExtLib} {db : DB} (hB : ExtractBounded E) :
    ∀ fuel hist q r, processQueryAux E db fuel hist q = some r → GoodResp r := by
  intro fuel
  induction fuel with
  | zero =>
      intro hist q r h
      refine processQueryCore_good hB ?_ r h
      intro rq r' h'
      rw [Option.some.injEq] at h'; subst h'
      exact clarificationResponse_good
  | succ n ih =>
      intro hist q r h
      exact processQueryCore_good hB (fun rq r' h' => ih _ _ _ h') r h

theorem processQuery_good {E : ExtLib} {db : DB} {fuel : Nat}
    {hist : List (String × Str)} {q : Str} {r : BatmanResponse}
    (hB : ExtractBounded E) (h : processQuery E db fuel hist q = some r) :
    GoodResp r :=
  processQueryAux_good hB fuel hist q r h

/-! ### Scope-filter and threshold helpers -/

theorem scope_false_of_denylist {q : Str}
    (hd : containsDenylistedTerm q = true)
    (hb : containsBatmanAnchor q = false) :
    checkBatmanScope q = false := by
  simp only [checkBatmanScope]
  have h1 : ((nonBatmanHeroes ++ nonBatmanEntities).any
      (fun t => hasSub t (strLower q) &&
        !(batmanTerms.any (fun t => hasSub t (strLower q))))) = true := by
    unfold containsBatmanAnchor at hb
    rw [hb]
    unfold containsDenylistedTerm at hd
    simpa using hd
  rw [if_pos h1]

theorem findBestEntityMatch_none_of_low {E : ExtLib} {cache : EntityCache}
    {q : Str}
    (h : ∀ t ∈ allKinds, ∀ p ∈ E.extract (cleanQueryForMatching q)
        ((cache.byKind t).map (·.name)) 5, p.2 < 60) :
    findBestEntityMatch E cache q none 60 = none := by
  have hnil : findBestCandidates E cache (cleanQueryForMatching q) allKinds 60 = [] := by
    rw [List.eq_nil_iff_forall_not_mem]
    intro c hc
    obtain ⟨t, ht, p, hp, e, -, hth, -⟩ := findBestCandidates_mem hc
    have hlt := h t ht p hp
    have hmax : max 60 50 = 60 := by norm_num
    omega
  simp only [findBestEntityMatch, hnil]
  rfl

/-! ### Sample-oracle contracts -/

theorem sampleScore_le {q n : Str} {s : Nat} (h : sampleScore q n = some s) :
    s ≤ 100 := by
  simp only [sampleScore] at h
  split at h
  · rw [Option.some.injEq] at h; omega
  · split at h
    · rw [Option.some.injEq] at h; omega
    · split at h
      · rw [Option.some.injEq] at h; omega
      · split at h
        · rw [Option.some.injEq] at h; omega
        · cases h

theorem sampleExt_bounded : ExtractBounded sampleExt := by
  intro q ns k p hp
  simp only [sampleExt, sampleExtract] at hp
  rw [List.mem_filterMap] at hp
  obtain ⟨n, -, hn⟩ := hp
  rw [Option.map_eq_some'] at hn
  obtain ⟨s, hs, heq⟩ := hn
  subst heq
  exact sampleScore_le hs

theorem c3aExt_bounded : ExtractBounded c3aExt := by
  intro q ns k p hp
  simp only [c3aExt] at hp
  split at hp
  · rw [List.mem_filterMap] at hp
    obtain ⟨n, -, hn⟩ := hp
    split at hn
    · rw [Option.some.injEq] at hn; subst hn; omega
    · split at hn
      · rw [Option.some.injEq] at hn; subst hn; omega
      · cases hn
  · cases hp

/-! ### Speed-parsing helpers -/

theorem extractSpeedNumber_den_pos (s : Str) :
    0 < (extractSpeedNumber s).den := by
  simp only [extractSpeedNumber]
  split
  · norm_num
  · split
    · norm_num
    · exact Nat.pos_pow_of_pos _ (by norm_num)

/-! ### Alias-cache resolution -/

theorem cache_byKind_alias {db : DB} {t : String} {e : CacheEntry}
    (h : e ∈ (buildEntityCache db).byKind t) (ha : e.isAlias = true) :
    e ∈ (buildEntityCache db).characters := by
  unfold EntityCache.byKind at h
  split at h
  · exact h
  · simp only [buildEntityCache] at h
    rw [List.mem_map] at h
    obtain ⟨row, -, rfl⟩ := h
    simp [plainEntry] at ha
  · simp only [buildEntityCache] at h
    rw [List.mem_map] at h
    obtain ⟨row, -, rfl⟩ := h
    simp [plainEntry] at ha
  · simp only [buildEntityCache] at h
    rw [List.mem_map] at h
    obtain ⟨row, -, rfl⟩ := h
    simp [plainEntry] at ha
  · simp only [buildEntityCache] at h
    rw [List.mem_map] at h
    obtain ⟨row, -, rfl⟩ := h
    simp [plainEntry] at ha
  · simp at h

theorem cache_alias_resolves {db : DB} {e : CacheEntry}
    (h : e ∈ (buildEntityCache db).characters) (ha : e.isAlias = true) :
    ∃ c ∈ db.characters, e.id = c.id ∧ e.realName.getD e.name = c.name := by
  simp only [buildEntityCache] at h
  rw [List.mem_append] at h
  rcases h with h | h
  · rw [List.mem_map] at h
    obtain ⟨c, -, rfl⟩ := h
    simp [plainEntry] at ha
  · rw [List.mem_filterMap] at h
    obtain ⟨ar, -, hfm⟩ := h
    rw [Option.map_eq_some'] at hfm
    obtain ⟨c, hfind, heq⟩ := hfm
    refine ⟨c, List.mem_of_find?_eq_some hfind, ?_, ?_⟩
    · rw [← heq]
    · rw [← heq]; rfl

theorem findBestCandidates_origScore {E : ExtLib} {cache : EntityCache}
    {clean : Str} {ts : List String} {th : Nat} {c : Cand}
    (h : c ∈ findBestCandidates E cache clean ts th) :
    c.em.confidence = 10 * (c.originalScore : Int) := by
  obtain ⟨t, -, p, -, e, -, -, hceq⟩ := findBestCandidates_mem h
  rw [hceq]

/-! ## Claim theorems -/

/-- **C1** (corrected).  The denylist scope filter is not global: it runs only
inside the three handlers that call `_check_batman_scope` (character, vehicle,
general search), where a denylisted term without a franchise anchor does force
`out_of_scope` with confidence 0.  The location, sidekick and relationship
handlers and every pipeline stage before the classifier dispatch never consult
the filter, so such a query routed there is answered normally (see the
counterexample). -/
theorem c1_scope_filter_at_handlers {E : ExtLib} {cache : EntityCache} {db : DB}
    {recur : Str → Option BatmanResponse} {histAfter : List (String × Str)}
    {q : Str}
    (hd : containsDenylistedTerm q = true)
    (hb : containsBatmanAnchor q = false) :
    handleCharacterQuery E cache db recur histAfter q = some outOfScopeResponse ∧
    handleVehicleQuery E cache db q = outOfScopeResponse ∧
    handleGeneralSearch E cache db q = outOfScopeResponse := by
  have hs := scope_false_of_denylist hd hb
  refine ⟨?_, ?_, ?_⟩
  · simp only [handleCharacterQuery, hs]; rfl
  · simp only [handleVehicleQuery, hs]; rfl
  · simp only [handleGeneralSearch, hs]; rfl

theorem c1_scope_filter_at_handlers_witness :
    containsDenylistedTerm (S "who is superman") = true ∧
    containsBatmanAnchor (S "who is superman") = false ∧
    (handleCharacterQuery sampleExt sampleCache sampleDB (fun _ => none) []
        (S "who is superman") = some outOfScopeResponse ∧
      handleVehicleQuery sampleExt sampleCache sampleDB (S "who is superman") =
        outOfScopeResponse ∧
      handleGeneralSearch sampleExt sampleCache sampleDB (S "who is superman") =
        outOfScopeResponse) :=
  ⟨by decide, by decide, c1_scope_filter_at_handlers (by decide) (by decide)⟩

theorem c1_counterexample :
    containsDenylistedTerm (S "where is metropolis") = true ∧
    containsBatmanAnchor (S "where is metropolis") = false ∧
    processQuery sampleExt sampleDB 1 [] (S "where is metropolis") =
      some ⟨0, [], "location_lookup", none⟩ ∧
    "location_lookup" ≠ "out_of_scope" := by
  decide

/-- **C2** (corrected).  Amended vocabulary: with a live database connection
`process_query`'s `query_type` always lies in `observedQueryTypes`, which
differs from the spec's claimed vocabulary — `not_found` and `error` are never
emitted by `process_query`, while `sidekick_lookup`, `comparison`,
`character_weapons`, the table tags `locations`/`characters` and the dead
`unknown` tag are. -/
theorem c2_query_type_vocabulary {E : ExtLib} {db : DB} {fuel : Nat}
    {hist : List (String × Str)} {q : Str} {r : BatmanResponse}
    (hB : ExtractBounded E) (h : processQuery E db fuel hist q = some r) :
    r.queryType ∈ observedQueryTypes :=
  (processQuery_good hB h).1

theorem c2_query_type_vocabulary_witness :
    ExtractBounded sampleExt ∧
    processQuery sampleExt sampleDB 1 [] (S "who is batman") =
      some ⟨900, [S "c_batman"], "character_lookup", none⟩ ∧
    "character_lookup" ∈ observedQueryTypes := by
  have h : processQuery sampleExt sampleDB 1 [] (S "who is batman") =
      some ⟨900, [S "c_batman"], "character_lookup", none⟩ := by decide
  exact ⟨sampleExt_bounded, h, c2_query_type_vocabulary sampleExt_bounded h⟩

theorem c2_counterexample :
    processQuery sampleExt sampleDB 1 [] (S "sidekick") =
      some ⟨500, [], "sidekick_lookup",
        some [S "Robin_(Dick_Grayson)", S "Robin_(Tim_Drake)"]⟩ ∧
    "sidekick_lookup" ∉ claimedQueryTypes := by
  decide

/-- **C9** (confirmed).  Assuming the `fuzzywuzzy` contract that
`process.extract` scores lie in `[0, 100]`, every response `process_query`
returns carries a confidence in `[0.0, 1.0]` (thousandths `0 ≤ c ≤ 1000`);
the per-matcher bounds are proved separately
(`findBestEntityMatch_conf_bounds`, `findMultipleEntities_conf_bounds`,
`semanticSearch_conf_bounds`, `findBestVehicleMatch_conf_bounds`). -/
theorem c9_confidence_bounds {E : ExtLib} {db : DB} {fuel : Nat}
    {hist : List (String × Str)} {q : Str} {r : BatmanResponse}
    (hB : ExtractBounded E) (h : processQuery E db fuel hist q = some r) :
    0 ≤ r.confidence ∧ r.confidence ≤ 1000 :=
  ⟨(processQuery_good hB h).2.1, (processQuery_good hB h).2.2.1⟩

theorem c9_confidence_bounds_witness :
    ExtractBounded sampleExt ∧
    processQuery sampleExt sampleDB 1 [] (S "what does batman drive") =
      some ⟨1000, [S "v_batmobile"], "vehicle_lookup", none⟩ ∧
    (0 : Int) ≤ 1000 ∧ (1000 : Int) ≤ 1000 := by
  have h : processQuery sampleExt sampleDB 1 [] (S "what does batman drive") =
      some ⟨1000, [S "v_batmobile"], "vehicle_lookup", none⟩ := by decide
  exact ⟨sampleExt_bounded, h, c9_confidence_bounds sampleExt_bounded h⟩

/-- **C10** (confirmed).  Every response of `process_query` that carries a
non-empty `suggestions` list is a disambiguation response: its confidence is
exactly 0.5 and its `source_entities` list is empty.  (Both handler sites that
attach suggestions hard-code confidence 0.5 and no entities.) -/
theorem c10_disambiguation_discipline {E : ExtLib} {db : DB} {fuel : Nat}
    {hist : List (String × Str)} {q : Str} {r : BatmanResponse} {l : List Str}
    (hB : ExtractBounded E) (h : processQuery E db fuel hist q = some r)
    (hs : r.suggestions = some l) (_hne : l ≠ []) :
    r.confidence = 500 ∧ r.sourceEntities = [] :=
  (processQuery_good hB h).2.2.2 l hs

theorem c10_disambiguation_discipline_witness :
    ExtractBounded c3aExt ∧
    processQuery c3aExt sampleDB 1 [] (S "robin") =
      some ⟨500, [], "sidekick_lookup",
        some [S "Robin_(Dick_Grayson)", S "Robin_(Tim_Drake)"]⟩ ∧
    ([S "Robin_(Dick_Grayson)", S "Robin_(Tim_Drake)"] : List Str) ≠ [] ∧
    ((500 : Int) = 500 ∧ ([] : List Str) = []) := by
  have h : processQuery c3aExt sampleDB 1 [] (S "robin") =
      some ⟨500, [], "sidekick_lookup",
        some [S "Robin_(Dick_Grayson)", S "Robin_(Tim_Drake)"]⟩ := by decide
  exact ⟨c3aExt_bounded, h, by decide,
    c10_disambiguation_discipline c3aExt_bounded h rfl (by decide)⟩

/-- **C4** (corrected).  A nonsense query matching nothing is answered by
`_handle_general_search`'s ambiguous fallback, whose query_type is
`general_search`, not the spec's claimed `not_found` (which `process_query`
never emits); confidence 0.0 and empty `source_entities` do hold, and the
response is identical for every fuel bound and every conversation history, so
repeated identical calls agree. -/
theorem c4_nonsense_general_search :
    ∀ (fuel : Nat) (hist : List (String × Str)),
      processQuery sampleExt sampleDB fuel hist (S "zzqxnonexistent123") =
        some ⟨0, [], "general_search", none⟩ := by
  intro fuel hist
  cases fuel with
  | zero => rfl
  | succ n => rfl

theorem c4_counterexample :
    processQuery sampleExt sampleDB 1 [] (S "zzqxnonexistent123") =
      some ⟨0, [], "general_search", none⟩ ∧
    "general_search" ≠ "not_found" := by
  decide

/-- **C3** (confirmed).  Threshold semantics of the general-search path, both
ways.  When every fuzzy score visible to the strict pass is below 60 (so in
particular when all matches score in `[50,60)`) and the loose pass (threshold
50) still finds at least two entities, the handler answers with confidence
exactly 0.5 and a suggestions list of length at least 2.  When the strict pass
finds a single match above the 0.6 gate that resolves in the database, the
response carries that match and no suggestions. -/
theorem c3_threshold_semantics (E : ExtLib) (cache : EntityCache) (db : DB)
    (q : Str) (hscope : checkBatmanScope q = true) :
    ((∀ t ∈ allKinds, ∀ p ∈ E.extract (cleanQueryForMatching q)
        ((cache.byKind t).map (·.name)) 5, p.2 < 60) →
      2 ≤ (findMultipleEntities E cache q 5 50).length →
      ∃ l, handleGeneralSearch E cache db q =
          ⟨500, [], "general_search", some l⟩ ∧ 2 ≤ l.length) ∧
    (∀ m row, findBestEntityMatch E cache q none 60 = some m →
      600 < m.confidence →
      getEntityById db m.entityId m.entityType = some row →
      handleGeneralSearch E cache db q =
        ⟨m.confidence, [m.entityId], "general_search", none⟩) := by
  constructor
  · intro hlow hlen
    have hnone := findBestEntityMatch_none_of_low hlow
    have hg : handleGeneralSearch E cache db q = generalAmbiguousFallback E cache q := by
      unfold handleGeneralSearch
      rw [hscope, hnone]
      rfl
    rw [hg]
    unfold generalAmbiguousFallback handleAmbiguousQuery
    rcases hms : findMultipleEntities E cache q 5 50 with - | ⟨m1, tl⟩
    · rw [hms] at hlen; simp at hlen
    · rcases tl with - | ⟨m2, rest⟩
      · rw [hms] at hlen; simp at hlen
      · refine ⟨suggestionsOf (m1 :: m2 :: rest), rfl, ?_⟩
        simp [suggestionsOf]
  · intro m row hm hconf hrow
    unfold handleGeneralSearch
    rw [hscope, hm]
    show (if m.confidence > 600 then
        match getEntityById db m.entityId m.entityType with
        | some _ => ({ confidence := m.confidence, sourceEntities := [m.entityId],
                       queryType := "general_search", suggestions := none } : BatmanResponse)
        | none => generalAmbiguousFallback E cache q
      else generalAmbiguousFallback E cache q) =
      ⟨m.confidence, [m.entityId], "general_search", none⟩
    rw [if_pos hconf, hrow]

theorem c3_threshold_semantics_witness :
    checkBatmanScope (S "robin") = true ∧
    (∀ t ∈ allKinds, ∀ p ∈ c3aExt.extract (cleanQueryForMatching (S "robin"))
        ((sampleCache.byKind t).map (·.name)) 5, p.2 < 60) ∧
    2 ≤ (findMultipleEntities c3aExt sampleCache (S "robin") 5 50).length ∧
    (∃ l, handleGeneralSearch c3aExt sampleCache sampleDB (S "robin") =
        ⟨500, [], "general_search", some l⟩ ∧ 2 ≤ l.length) ∧
    checkBatmanScope (S "gotham") = true ∧
    findBestEntityMatch c3bExt sampleCache (S "gotham") none 60 =
      some ⟨S "l_gotham", "locations", S "Gotham_City", 850, "fuzzy"⟩ ∧
    (600 : Int) < 850 ∧
    getEntityById sampleDB (S "l_gotham") "locations" =
      some ⟨S "l_gotham", S "Gotham_City", S "Home of the Bat"⟩ ∧
    handleGeneralSearch c3bExt sampleCache sampleDB (S "gotham") =
      ⟨850, [S "l_gotham"], "general_search", none⟩ := by
  refine ⟨by decide, by decide, by decide, ?_, by decide, by decide, by decide,
    by decide, ?_⟩
  · exact (c3_threshold_semantics c3aExt sampleCache sampleDB (S "robin")
      (by decide)).1 (by decide) (by decide)
  · exact (c3_threshold_semantics c3bExt sampleCache sampleDB (S "gotham")
      (by decide)).2
      ⟨S "l_gotham", "locations", S "Gotham_City", 850, "fuzzy"⟩
      ⟨S "l_gotham", S "Gotham_City", S "Home of the Bat"⟩
      (by decide) (by decide) (by decide)

/-- **C5** (corrected).  The enhanced vehicle speed comparison does not degrade
gracefully: an unparseable speed string parses to 0.0, so whenever one side
parses to a positive number and the other does not, `_compare_vehicle_speed`
declares the parseable side the winner at confidence 0.8 — never the claimed
no-winner outcome at 0.5–0.6.  (The graceful fallback of
`_compare_entities_fallback` exists but is unreachable for vehicle–vehicle
comparisons, which `_enhanced_compare_entities` routes to the enhanced
engine.) -/
theorem c5_unparseable_speed_awards_winner {n1 n2 : Str} {s1 s2 : VehSpecs}
    (h1 : 0 < (extractSpeedNumber (s1.maxSpeed.getD (S "0 mph"))).num)
    (h2 : (extractSpeedNumber (s2.maxSpeed.getD (S "0 mph"))).num = 0) :
    compareVehicleSpeed n1 n2 s1 s2 = (some n1, 800) := by
  have hgt : fracGt (extractSpeedNumber (s1.maxSpeed.getD (S "0 mph")))
      (extractSpeedNumber (s2.maxSpeed.getD (S "0 mph"))) = true := by
    unfold fracGt
    rw [decide_eq_true_eq, h2]
    have hden := extractSpeedNumber_den_pos (s2.maxSpeed.getD (S "0 mph"))
    simpa using Nat.mul_pos h1 hden
  simp only [compareVehicleSpeed, hgt]
  rfl

theorem c5_unparseable_speed_awards_winner_witness :
    0 < (extractSpeedNumber ((VehSpecs.mk (some (S "200 mph")) none none none).maxSpeed.getD
        (S "0 mph"))).num ∧
    (extractSpeedNumber ((VehSpecs.mk (some (S "unknown velocity")) none none none).maxSpeed.getD
        (S "0 mph"))).num = 0 ∧
    compareVehicleSpeed (S "Batmobile") (S "Phantom")
        (VehSpecs.mk (some (S "200 mph")) none none none)
        (VehSpecs.mk (some (S "unknown velocity")) none none none) =
      (some (S "Batmobile"), 800) :=
  ⟨by decide, by decide,
    c5_unparseable_speed_awards_winner (by decide) (by decide)⟩

theorem c5_counterexample :
    enhancedVehicleComparison sampleDB (S "Batmobile") (S "Phantom") "speed" =
      (some (S "Batmobile"), 800) ∧
    extractSpeedNumber (S "unknown velocity") = ⟨0, 1⟩ ∧
    ¬((500 : Int) ≤ 800 ∧ (800 : Int) ≤ 600) := by
  decide

/-- **C6** (corrected).  `find_best_entity_match` selects by similarity plus
importance bonus and reports the pre-bonus similarity alone as confidence —
but `find_multiple_entities` does not: its confidence is the similarity score
plus the entity's importance value, capped at 1.0 (see the counterexample,
where a 90-similarity match is reported at confidence 1.0). -/
theorem c6_confidence_prebonus {E : ExtLib} {cache : EntityCache} {q : Str}
    {et : Option String} {th : Nat} {m : EntityMatch}
    (h : findBestEntityMatch E cache q et th = some m) :
    (∃ c ∈ findBestCandidates E cache (cleanQueryForMatching q)
        (match et with | some t => [t] | none => allKinds) th,
      m = c.em ∧ m.confidence = 10 * (c.originalScore : Int) ∧
      ∀ d ∈ findBestCandidates E cache (cleanQueryForMatching q)
          (match et with | some t => [t] | none => allKinds) th,
        d.finalScore ≤ c.finalScore) ∧
    (∀ (k th' : Nat) (m' : EntityMatch),
      m' ∈ findMultipleEntities E cache q k th' →
      ∃ t ∈ allKinds, ∃ p ∈ E.extract (cleanQueryForMatching q)
          ((cache.byKind t).map (·.name)) 8, ∃ e,
        (cache.byKind t).find? (fun x => x.name = p.1) = some e ∧
        m'.confidence = min (10 * (p.2 : Int) + (importanceValue e.name : Int)) 1000) := by
  constructor
  · obtain ⟨c, hc, hm, hall⟩ := findBestEntityMatch_spec h
    refine ⟨c, hc, hm, ?_, hall⟩
    rw [hm]
    exact findBestCandidates_origScore hc
  · intro k th' m' hm'
    obtain ⟨t, ht, p, hp, e, hfind, -, hmeq⟩ := findMultipleEntities_mem hm'
    exact ⟨t, ht, p, hp, e, hfind, by rw [hmeq]⟩

theorem c6_confidence_prebonus_witness :
    findBestEntityMatch sampleExt sampleCache (S "bruce wayne")
        (some "characters") 70 =
      some ⟨S "c_batman", "characters", S "Batman", 950, "alias"⟩ ∧
    ((∃ c ∈ findBestCandidates sampleExt sampleCache
        (cleanQueryForMatching (S "bruce wayne")) ["characters"] 70,
      (⟨S "c_batman", "characters", S "Batman", 950, "alias"⟩ : EntityMatch) = c.em ∧
      (950 : Int) = 10 * (c.originalScore : Int) ∧
      ∀ d ∈ findBestCandidates sampleExt sampleCache
          (cleanQueryForMatching (S "bruce wayne")) ["characters"] 70,
        d.finalScore ≤ c.finalScore) ∧
    (∀ (k th' : Nat) (m' : EntityMatch),
      m' ∈ findMultipleEntities sampleExt sampleCache (S "bruce wayne") k th' →
      ∃ t ∈ allKinds, ∃ p ∈ sampleExt.extract
          (cleanQueryForMatching (S "bruce wayne"))
          ((sampleCache.byKind t).map (·.name)) 8, ∃ e,
        (sampleCache.byKind t).find? (fun x => x.name = p.1) = some e ∧
        m'.confidence = min (10 * (p.2 : Int) + (importanceValue e.name : Int)) 1000)) := by
  have h : findBestEntityMatch sampleExt sampleCache (S "bruce wayne")
      (some "characters") 70 =
      some ⟨S "c_batman", "characters", S "Batman", 950, "alias"⟩ := by decide
  exact ⟨h, c6_confidence_prebonus h⟩

theorem c6_counterexample :
    sampleExt.extract (cleanQueryForMatching (S "batman"))
        ((sampleCache.byKind "characters").map (·.name)) 8 = [(S "Batman", 90)] ∧
    findMultipleEntities sampleExt sampleCache (S "batman") 5 60 =
      [⟨S "c_batman", "characters", S "Batman", 1000, "fuzzy"⟩] ∧
    (1000 : Int) ≠ 10 * 90 := by
  decide

/-- **C7** (confirmed).  The vehicle-lookup handler's dual confidence gate:
once the selected match resolves in the database, it is accepted exactly when
its confidence exceeds 0.4 if its `match_type` is `character_vehicle`, and
0.6 for every other match type; otherwise the handler falls through to its
not-found response. -/
theorem c7_vehicle_dual_gate {E : ExtLib} {cache : EntityCache} {db : DB}
    {q : Str} {m : EntityMatch} {row : EntityRow}
    (hs : checkBatmanScope q = true)
    (hm : vehicleMatchOf E cache q = some m)
    (hrow : getEntityById db m.entityId "vehicles" = some row) :
    handleVehicleQuery E cache db q =
      (if m.confidence > (if m.matchType = "character_vehicle" then 400 else 600)
       then ⟨m.confidence, [m.entityId], "vehicle_lookup", none⟩
       else notFoundResponse "vehicle_lookup") := by
  unfold handleVehicleQuery
  rw [hs, hm]
  show (if m.confidence > (if m.matchType = "character_vehicle" then 400 else 600) then
      match getEntityById db m.entityId "vehicles" with
      | some _ => ({ confidence := m.confidence, sourceEntities := [m.entityId],
                     queryType := "vehicle_lookup", suggestions := none } : BatmanResponse)
      | none => notFoundResponse "vehicle_lookup"
    else notFoundResponse "vehicle_lookup") = _
  rw [hrow]

theorem c7_vehicle_dual_gate_witness :
    checkBatmanScope (S "what does batman drive") = true ∧
    vehicleMatchOf sampleExt sampleCache (S "what does batman drive") =
      some ⟨S "v_batmobile", "vehicles", S "Batmobile", 1000, "character_vehicle"⟩ ∧
    getEntityById sampleDB (S "v_batmobile") "vehicles" =
      some ⟨S "v_batmobile", S "Batmobile", S "Armored pursuit vehicle"⟩ ∧
    handleVehicleQuery sampleExt sampleCache sampleDB (S "what does batman drive") =
      ⟨1000, [S "v_batmobile"], "vehicle_lookup", none⟩ := by
  have hm : vehicleMatchOf sampleExt sampleCache (S "what does batman drive") =
      some ⟨S "v_batmobile", "vehicles", S "Batmobile", 1000, "character_vehicle"⟩ := by
    decide
  have hrow : getEntityById sampleDB (S "v_batmobile") "vehicles" =
      some ⟨S "v_batmobile", S "Batmobile", S "Armored pursuit vehicle"⟩ := by decide
  exact ⟨by decide, hm, hrow, c7_vehicle_dual_gate (by decide) hm hrow⟩

/-- **C8** (confirmed).  An alias pseudo-entity selected by the matcher is
resolved back to the real entity: whenever `find_best_entity_match` over the
cache built from the database returns an `alias` match, the match's
`entity_id` is a real character row's id and its `name` that row's canonical
name — so an alias query yields the same `source_entities` id as the
canonical-name query. -/
theorem c8_alias_resolution {E : ExtLib} {db : DB} {q : Str}
    {et : Option String} {th : Nat} {m : EntityMatch}
    (h : findBestEntityMatch E (buildEntityCache db) q et th = some m)
    (ha : m.matchType = "alias") :
    ∃ c ∈ db.characters, m.entityId = c.id ∧ m.name = c.name := by
  obtain ⟨c, hc, hm, -⟩ := findBestEntityMatch_spec h
  obtain ⟨t, ht, p, hp, e, hfind, -, hceq⟩ := findBestCandidates_mem hc
  have he : e ∈ (buildEntityCache db).byKind t := List.mem_of_find?_eq_some hfind
  have hma : e.isAlias = true := by
    cases hia : e.isAlias
    · exfalso
      rw [hm, hceq, hia] at ha
      exact absurd ha (by simp)
    · rfl
  obtain ⟨crow, hcrow, hid, hname⟩ :=
    cache_alias_resolves (cache_byKind_alias he hma) hma
  refine ⟨crow, hcrow, ?_, ?_⟩
  · rw [hm, hceq]; exact hid
  · rw [hm, hceq]; exact hname

theorem c8_alias_resolution_witness :
    findBestEntityMatch sampleExt (buildEntityCache sampleDB) (S "bruce wayne")
        (some "characters") 70 =
      some ⟨S "c_batman", "characters", S "Batman", 950, "alias"⟩ ∧
    ("alias" : String) = "alias" ∧
    (∃ c ∈ sampleDB.characters,
      (S "c_batman") = c.id ∧ (S "Batman") = c.name) := by
  have h : findBestEntityMatch sampleExt (buildEntityCache sampleDB) (S "bruce wayne")
      (some "characters") 70 =
      some ⟨S "c_batman", "characters", S "Batman", 950, "alias"⟩ := by decide
  exact ⟨h, rfl, c8_alias_resolution h rfl⟩
